import Mathlib

set_option maxRecDepth 100000

deriving instance DecidableEq for Except

/-!
Verification of the client-side request orchestration and rate-adaptive batch
execution engine of the image-generation front end (src/App.tsx,
src/services/geminiService.ts, src/functions/api/gemini.ts).

The TypeScript code is shallowly embedded: JavaScript strings are Lean
`String`s, thrown JavaScript values are `RawError`, `async` control flow is
sequentialised (the app runs one logical worker), timing side effects
(`setTimeout` pacing waits) and network dispatches are recorded in an explicit
event trace, and the network is an oracle function passed as a parameter.
JSON parsing (`JSON.parse`) is abstracted by an oracle parameter, since the
branches under verification never depend on its result.
-/

/-! ## JavaScript string primitives

The source uses `String.prototype.includes`, `split`, `trim`, `toLowerCase`
and truthiness tests on strings.  They are modelled on `List Char` so that
every operation is structurally recursive and kernel-evaluable. -/

/-- Test whether `pat` occurs at the very start of `s` (helper for
`charsContain`, the model of `String.prototype.includes`). -/
def charsLead : List Char → List Char → Bool
  | [], _ => true
  | _ :: _, [] => false
  | a :: as, b :: bs => a == b && charsLead as bs

/-- Test whether `pat` occurs anywhere inside the character list. -/
def charsContain (pat : List Char) : List Char → Bool
  | [] => charsLead pat []
  | c :: rest => charsLead pat (c :: rest) || charsContain pat rest

/-- Model of JavaScript `s.includes(pat)`. -/
def jsIncludes (s pat : String) : Bool :=
  charsContain pat.data s.data

/-- Characters after the first occurrence of `pat` (helper for the model of
`String.prototype.split`); `none` when `pat` does not occur. -/
def charsDropAfter (pat : List Char) : List Char → Option (List Char)
  | [] => none
  | c :: rest =>
    if charsLead pat (c :: rest) then some ((c :: rest).drop pat.length)
    else charsDropAfter pat rest

/-- Characters before the first occurrence of `pat` (the whole list when
`pat` does not occur). -/
def charsTakeUntil (pat : List Char) : List Char → List Char
  | [] => []
  | c :: rest =>
    if charsLead pat (c :: rest) then [] else c :: charsTakeUntil pat rest

/-- Model of JavaScript `s.split(sep)[1]`: the segment between the first and
second occurrences of `sep`.  When `sep` does not occur, JavaScript yields
`undefined` and the source would then crash calling `.toLowerCase()` on it;
that input cannot arise from the error strings this codebase constructs, and
the model returns `""` there. -/
def jsSplitSecond (s sep : String) : String :=
  match charsDropAfter sep.data s.data with
  | some r => String.mk (charsTakeUntil sep.data r)
  | none => ""

/-- Model of JavaScript `s.split(sep)[0]`: the prefix of `s` before the first
occurrence of `sep` (all of `s` when `sep` does not occur). -/
def jsSplitHead (s sep : String) : String :=
  String.mk (charsTakeUntil sep.data s.data)

/-- The source displays only the first paragraph of a translated error:
`errorMessage.split('\n\n')[0]`. -/
def firstBlock (s : String) : String :=
  jsSplitHead s "\n\n"

/-- Whitespace stripped by the model of `String.prototype.trim`.  JavaScript
trims a larger Unicode class; only these ASCII characters are exercised by
the credential strings this code handles. -/
def jsWhitespace (c : Char) : Bool :=
  c == ' ' || c == '\t' || c == '\n' || c == '\r'

/-- Drop leading whitespace characters. -/
def dropLeadingWs : List Char → List Char
  | [] => []
  | c :: rest => if jsWhitespace c then dropLeadingWs rest else c :: rest

/-- Model of JavaScript `s.trim()`. -/
def jsTrim (s : String) : String :=
  String.mk (dropLeadingWs (dropLeadingWs s.data.reverse).reverse)

/-- Model of JavaScript `s.toLowerCase()`, folding the ASCII range.
JavaScript also folds non-ASCII letters; the patterns matched against
lowercased text in this code ("hết hạn ngạch", "429") contain no character
on which the two foldings differ for the messages the classifier emits. -/
def jsToLowerCase (s : String) : String :=
  String.mk (s.data.map Char.toLower)

/-- JavaScript truthiness of the `userApiKey: string | null` state:
`null` and `""` are falsy, used as `!!userApiKey` / `!userApiKey`. -/
def jsTruthy : Option String → Bool
  | none => false
  | some s => !(s == "")

/-! ## Error values and the error classifier (src/App.tsx, translateApiError)

A value thrown by the generation client is either a JavaScript `Error`
carrying a message (`RawError.err`) or some non-`Error` value
(`RawError.nonError`, the `!(error instanceof Error)` branch). -/

/-- A raw failure value thrown by the image-generation client. -/
inductive RawError where
  | err (message : String)
  | nonError
deriving DecidableEq

/-- The closed error taxonomy of the spec; each constructor names the branch
of `translateApiError` that fires (branches 8 and 9, the JSON fallback and
the catch-all, are both `unknown`). -/
inductive ErrorKind where
  | invalidCredential
  | quotaExhausted
  | safetyBlocked
  | modelRefusal
  | noCredential
  | networkError
  | unknown
deriving DecidableEq

/-- Branch-2 pattern: invalid/unauthorized credential. -/
def invalidKeyPat (message : String) : Bool :=
  jsIncludes message "API key not valid" || jsIncludes message "PERMISSION_DENIED"

/-- Branch-3 pattern: quota/rate exhaustion. -/
def quotaPat (message : String) : Bool :=
  jsIncludes message "RESOURCE_EXHAUSTED" || jsIncludes message "429"

/-- Branch-4 pattern: safety block. -/
def safetyPat (message : String) : Bool :=
  jsIncludes message "SAFETY"

/-- Branch-5 pattern: model refusal / model error wrapper. -/
def modelErrPat (message : String) : Bool :=
  jsIncludes message "MODEL_ERROR:"

/-- Branch-6 pattern: missing credential. -/
def noKeyPat (message : String) : Bool :=
  jsIncludes message "NO_API_KEY"

/-- Branch-7 pattern: network/connectivity failure. -/
def networkPat (message : String) : Bool :=
  jsIncludes message "Failed to fetch" || jsIncludes message "NETWORK_ERROR"

/-- Known refusal phrasings checked inside the model-refusal branch. -/
def refusalKeywords : List String :=
  ["cannot fulfill", "i\x27m sorry", "unable to", "cannot generate", "i cannot",
   "as an ai", "my purpose is to be", "my safety guidelines",
   "violates my safety policies"]

/-- Message of the `!(error instanceof Error)` branch. -/
def msgNonError : String :=
  "Đã xảy ra một lỗi không xác định. Vui lòng thử lại."

/-- Message of the invalid-credential branch. -/
def msgInvalidKey : String :=
  "API Key bạn cung cấp không hợp lệ hoặc đã hết hạn.\n\nCách khắc phục:\n1. Kiểm tra lại xem bạn đã sao chép đúng Key chưa.\n2. Truy cập Google AI Studio để tạo một Key mới."

/-- Message of the quota branch when the user supplied their own credential. -/
def msgQuotaUserKey : String :=
  "API Key của bạn đã hết hạn ngạch sử dụng.\n\nCách khắc phục:\n1. Vui lòng kiểm tra hạn ngạch trên trang quản lý Key của Google AI Studio.\n2. Thử lại sau một thời gian hoặc sử dụng một Key khác."

/-- Message of the quota branch under the shared default credential. -/
def msgQuotaDefault : String :=
  "Rất tiếc, lượt sử dụng miễn phí của trang web đã hết do lưu lượng truy cập cao.\n\nĐể tiếp tục, vui lòng sử dụng API Key miễn phí của riêng bạn bằng cách nhấn vào nút \x27Cài đặt\x27 (hình bánh răng) ở góc trên bên trái."

/-- Message of the safety-block branch. -/
def msgSafety : String :=
  "Yêu cầu của bạn đã bị chặn vì lý do an toàn. AI sẽ từ chối các nội dung nhạy cảm hoặc không phù hợp.\n\nCách khắc phục:\n- Vui lòng sử dụng một bức ảnh khác, thân thiện hơn.\n- Nếu dùng lệnh tùy chỉnh, hãy đảm bảo nội dung tích cực."

/-- Canned message substituted when the wrapped model text matches a known
refusal phrasing. -/
def msgRefusal : String :=
  "Mô hình AI đã từ chối yêu cầu của bạn. Điều này thường xảy ra khi AI không hiểu rõ yêu cầu hoặc hình ảnh cung cấp không phù hợp.\n\nCách khắc phục:\n- Hãy thử dùng một bức ảnh rõ nét hơn.\n- Đơn giản hóa câu lệnh tùy chỉnh (nếu có)."

/-- Message of the missing-credential branch. -/
def msgNoApiKey : String :=
  "Không tìm thấy API Key mặc định. Vui lòng vào phần \x27Cài đặt\x27 để cung cấp API Key của riêng bạn và tiếp tục."

/-- Message of the network-failure branch. -/
def msgNetwork : String :=
  "Không thể kết nối đến máy chủ. Vui lòng kiểm tra kết nối mạng của bạn và thử lại.\n\nNếu bạn đang dùng mạng công ty hoặc VPN, có thể tường lửa đang chặn yêu cầu. Hãy thử dùng một mạng khác."

/-- The branch of `translateApiError` that fires for a raw error, named by
the spec taxonomy.  This mirrors the if/else chain of the source exactly;
the two fallback branches (embedded-JSON extraction and catch-all) are the
spec `Unknown` kind. -/
def classifyKind : RawError → ErrorKind
  | RawError.nonError => ErrorKind.unknown
  | RawError.err message =>
    if invalidKeyPat message then ErrorKind.invalidCredential
    else if quotaPat message then ErrorKind.quotaExhausted
    else if safetyPat message then ErrorKind.safetyBlocked
    else if modelErrPat message then ErrorKind.modelRefusal
    else if noKeyPat message then ErrorKind.noCredential
    else if networkPat message then ErrorKind.networkError
    else ErrorKind.unknown

/-- Model of `translateApiError` (src/App.tsx lines 24-94).  `tryParse`
abstracts branch 8, the attempt to locate a `\x7b`-delimited JSON object in the
message and extract `parsedError.error.message` via `JSON.parse`; it returns
`none` when no object is found, parsing throws, or the parsed object has no
such field. -/
def translateApiError (tryParse : String → Option String) :
    RawError → Bool → String
  | RawError.nonError, _ => msgNonError
  | RawError.err message, isUserKey =>
    if invalidKeyPat message then msgInvalidKey
    else if quotaPat message then
      if isUserKey then msgQuotaUserKey else msgQuotaDefault
    else if safetyPat message then msgSafety
    else if modelErrPat message then
      let modelResponse := jsSplitSecond message "MODEL_ERROR: "
      let modelResponseLower := jsToLowerCase modelResponse
      if refusalKeywords.any (fun keyword => jsIncludes modelResponseLower keyword) then
        msgRefusal
      else "Lỗi từ mô hình AI: " ++ modelResponse
    else if noKeyPat message then msgNoApiKey
    else if networkPat message then msgNetwork
    else
      match tryParse message with
      | some m => "Đã có lỗi xảy ra: " ++ m
      | none => "Đã xảy ra lỗi không xác định: " ++ message ++ ". Vui lòng thử lại sau."


/-! ## Small arithmetic helpers of the source -/

/-- Model of `clamp` (src/App.tsx line 22):
`Math.max(min, Math.min(max, value))`. -/
def clamp (value lo hi : Int) : Int :=
  max lo (min hi value)

/-- Model of `Number(stressTestQuantity) || 1`: the quantity state is either a
number or the empty string (`Number('') = 0`), and `0` is falsy. -/
def jsNumberOr1 : Option Int → Int
  | none => 1
  | some n => if n = 0 then 1 else n

/-- The quantity of variation items actually seeded:
`clamp(Number(stressTestQuantity) || 1, 1, 60)` (src/App.tsx line 771). -/
def stressQuantity (qty : Option Int) : Nat :=
  (clamp (jsNumberOr1 qty) 1 60).toNat

/-- Model of `Math.round(((i + 1) / total) * 100)` for the per-run progress
report, rounding the exact rational (the JavaScript double arithmetic agrees
on every value reachable here). -/
def roundProgress (done total : Nat) : Nat :=
  (200 * done + total) / (2 * total)

/-! ## Rate governor (src/App.tsx lines 297-325, 1438-1445)

`requestTimestamps` is a list of millisecond instants; the once-per-second
timer prunes it, publishes its length as `requestCount`, and decrements the
cooldown. -/

/-- One tick of the pruning timer:
`requestTimestamps.current.filter(t => t > oneMinuteAgo)` with
`oneMinuteAgo = now - 60000`. -/
def pruneTimestamps (now : Int) (timestamps : List Int) : List Int :=
  timestamps.filter (fun t => now - 60000 < t)

/-- The remaining-quota reading shown in the UI: `60 - requestCount`
(src/App.tsx line 1442). -/
def remainingRequests (requestCount : Nat) : Int :=
  60 - (requestCount : Int)

/-- One tick of the cooldown countdown:
`setRateLimitCooldown(prev => (prev > 0 ? prev - 1 : 0))`. -/
def tickCooldown (prev : Int) : Int :=
  if prev > 0 then prev - 1 else 0

/-! ## Run-submission gates

The variation-runner button is `disabled={isStressTesting || rateLimitCooldown > 0}`
(src/App.tsx line 1547); the batch button is `disabled={isBatchLoading}` only,
and `handleBatchGenerate` performs no cooldown check, so the cooldown argument
below is genuinely unused by the batch gate. -/

/-- Whether a click on the variation-runner generate button is accepted. -/
def stressSubmitEnabled (isStressTesting : Bool) (rateLimitCooldown : Int) : Bool :=
  !(isStressTesting || rateLimitCooldown > 0)

/-- Whether a click on the batch generate button is accepted. -/
def batchSubmitEnabled (isBatchLoading : Bool) (rateLimitCooldown : Int) : Bool :=
  !isBatchLoading

/-! ## Reverse proxy and generation client
(src/functions/api/gemini.ts, src/services/geminiService.ts) -/

/-- Result of `JSON.parse` on an upstream error body, as consumed by
`handleGoogleError`: the parse may throw, or succeed with or without an
`error.message` field. -/
inductive GoogleParse where
  | parsedWithMessage (m : String)
  | parsedNoMessage
  | parseFailed
deriving DecidableEq

/-- Model of `handleGoogleError` (src/functions/api/gemini.ts lines 26-43):
extract `errorData.error.message`, else the raw body text when non-empty,
else the generic message. -/
def handleGoogleError (gparse : String → GoogleParse) (errorText : String) : String :=
  match gparse errorText with
  | GoogleParse.parsedWithMessage m => m
  | GoogleParse.parsedNoMessage =>
    "Lỗi không xác định từ Google API."
  | GoogleParse.parseFailed =>
    if errorText == "" then "Lỗi không xác định từ Google API." else errorText

/-- Upstream (Google) response to a forwarded call. -/
inductive UpstreamResp where
  | ok (body : String)
  | httpError (status : Nat) (bodyText : String)
deriving DecidableEq

/-- The JSON body the proxy returns to the front end. -/
inductive ProxyBody where
  | errorJson (error : String)
  | dataJson (data : String)
deriving DecidableEq

/-- Observable outcome of one proxy invocation.  `upstreamKey` is the
credential used for the upstream network call, `none` when no upstream call
was made. -/
structure ProxyOutcome where
  status : Nat
  body : ProxyBody
  upstreamKey : Option String
deriving DecidableEq

/-- Model of `const apiKey = userApiKey?.trim() || env.API_KEY` followed by
the `if (!apiKey)` falsiness test (src/functions/api/gemini.ts lines 57-59).
`none` stands for a JavaScript-falsy resolved key (`undefined` or `""`);
`envKey = none` models an unconfigured `API_KEY` binding. -/
def resolveApiKey (userApiKey envKey : Option String) : Option String :=
  let orElse : Option String :=
    match userApiKey.map jsTrim with
    | some s => if s == "" then envKey else some s
    | none => envKey
  match orElse with
  | none => none
  | some s => if s == "" then none else some s

/-- Model of `onRequestPost` (src/functions/api/gemini.ts lines 50-121) on the
POST endpoints (`generateContent` etc.): resolve a credential, refuse with
`NO_API_KEY` and status 400 when none resolves, otherwise forward to the
upstream oracle and rewrite HTTP errors through `handleGoogleError`. -/
def onRequestPost (upstream : String → UpstreamResp) (gparse : String → GoogleParse)
    (userApiKey envKey : Option String) : ProxyOutcome :=
  match resolveApiKey userApiKey envKey with
  | none =>
    ⟨400, ProxyBody.errorJson "NO_API_KEY: API Key không được cấu hình trên máy chủ.", none⟩
  | some apiKey =>
    match upstream apiKey with
    | UpstreamResp.ok data => ⟨200, ProxyBody.dataJson data, some apiKey⟩
    | UpstreamResp.httpError st txt =>
      ⟨st, ProxyBody.errorJson (handleGoogleError gparse txt), some apiKey⟩

/-- Model of `callGeminiApi` (src/services/geminiService.ts lines 46-71).
The argument is the result of the `fetch` to the proxy: `Except.error ()` is
a connection failure (the `Failed to fetch` TypeError), otherwise the proxy
response.  A non-2xx response throws an `Error` whose message is
`errorData.error` when that field is present and truthy, else the
`Lỗi <status>` fallback (the response statusText, unused by any later
branch, is omitted from the fallback text). -/
def callGeminiApi (fetchResult : Except Unit ProxyOutcome) : Except RawError ProxyBody :=
  match fetchResult with
  | Except.error _ =>
    Except.error (RawError.err "NETWORK_ERROR: Không thể kết nối đến máy chủ. Vui lòng kiểm tra lại mạng.")
  | Except.ok resp =>
    if 200 ≤ resp.status && resp.status < 300 then Except.ok resp.body
    else
      Except.error (RawError.err
        (match resp.body with
         | ProxyBody.errorJson e => if e == "" then "Lỗi " ++ toString resp.status else e
         | ProxyBody.dataJson _ => "Lỗi " ++ toString resp.status))

/-! ## Shared task/result shapes and run events -/

/-- The four per-task statuses of both runners (`'idle' | 'loading' |
'success' | 'error'`). -/
inductive RunStatus where
  | idle
  | loading
  | success
  | error
deriving DecidableEq

/-- `BatchResult` (src/App.tsx lines 98-103). -/
structure BatchResult where
  taskId : Nat
  status : RunStatus
  imageUrl : Option String
  error : Option String
deriving DecidableEq

/-- `StressTestResult` (src/App.tsx lines 104-110). -/
structure StressResult where
  id : Nat
  status : RunStatus
  imageUrl : Option String
  error : Option String
  prompt : Option String
deriving DecidableEq

/-- Observable scheduling events of a run: a 1.1-second pacing wait
(`await new Promise(resolve => setTimeout(resolve, 1100))`) or the dispatch
of the task at a given position (the `generateTrendImage` call). -/
inductive Ev where
  | delay
  | dispatch (pos : Nat)
deriving DecidableEq

/-- Positions dispatched in a trace, in order. -/
def dispatches (evs : List Ev) : List Nat :=
  evs.filterMap fun e =>
    match e with
    | Ev.dispatch p => some p
    | Ev.delay => none

/-- Pacing check: `pacedFrom ok evs` holds when every dispatch in `evs` is
preceded by a pacing delay issued since the previous dispatch; `ok` records
whether such a delay precedes the next dispatch (so `pacedFrom true` grants
the very first dispatch a single exemption, `pacedFrom false` grants none). -/
def pacedFrom : Bool → List Ev → Bool
  | _, [] => true
  | _, Ev.delay :: rest => pacedFrom true rest
  | ok, Ev.dispatch _ :: rest => ok && pacedFrom false rest

/-! ## Sequential batch runner (src/App.tsx, handleBatchGenerate, lines 607-671) -/

/-- The per-iteration quota test of the batch runner:
`err instanceof Error && (err.message.includes("RESOURCE_EXHAUSTED") || err.message.includes("429"))`. -/
def isQuotaError : RawError → Bool
  | RawError.err m => jsIncludes m "RESOURCE_EXHAUSTED" || jsIncludes m "429"
  | RawError.nonError => false

/-- Whether an outcome triggers the batch runner's global abort:
a quota-classified failure with no truthy user credential
(`isQuotaError && !userApiKey`). -/
def abortsRun (userApiKey : Option String) : Except RawError String → Bool
  | Except.ok _ => false
  | Except.error e => isQuotaError e && !(jsTruthy userApiKey)

/-- Initial entry of the parallel result collection:
`{ taskId: task.taskId, status: 'loading' }`. -/
def mkLoading (taskId : Nat) : BatchResult :=
  ⟨taskId, RunStatus.loading, none, none⟩

/-- `setBatchResults(prev => prev.map(...))` on success. -/
def markBatchSuccess (results : List BatchResult) (taskId : Nat) (imageUrl : String) :
    List BatchResult :=
  results.map fun r =>
    if r.taskId == taskId then { r with status := RunStatus.success, imageUrl := some imageUrl }
    else r

/-- `setBatchResults(prev => prev.map(...))` on a per-task failure. -/
def markBatchError (results : List BatchResult) (taskId : Nat) (errorMessage : String) :
    List BatchResult :=
  results.map fun r =>
    if r.taskId == taskId then { r with status := RunStatus.error, error := some errorMessage }
    else r

/-- Observable outcome of a batch run: the final task results, the run-level
error (`setError`), the scheduling trace and the sequence of progress values
published by `setBatchProgress`. -/
structure BatchOutcome where
  results : List BatchResult
  runError : Option String
  trace : List Ev
  progress : List Nat
deriving DecidableEq

/-- The `for` loop of `handleBatchGenerate` (lines 641-668).  `outcomes i` is
the oracle giving the result of `generateTrendImage` for the task at position
`i`; the first iteration dispatches without a pacing delay (`if (i > 0)`),
every later one waits first.  A quota failure with no truthy user credential
clears all results, records one run-level error, and stops; every other
failure marks only the failing task. -/
def batchLoop (outcomes : Nat → Except RawError String) (tryParse : String → Option String)
    (userApiKey : Option String) (total : Nat) : Nat → List Nat → List BatchResult → BatchOutcome
  | _, [], results => ⟨results, none, [], []⟩
  | i, taskId :: rest, results =>
    let evs := (if i > 0 then [Ev.delay] else []) ++ [Ev.dispatch i]
    match outcomes i with
    | Except.ok imageUrl =>
      let o := batchLoop outcomes tryParse userApiKey total (i + 1) rest
        (markBatchSuccess results taskId imageUrl)
      ⟨o.results, o.runError, evs ++ o.trace, roundProgress (i + 1) total :: o.progress⟩
    | Except.error err =>
      let errorMessage := translateApiError tryParse err (jsTruthy userApiKey)
      if isQuotaError err && !(jsTruthy userApiKey) then
        ⟨[], some errorMessage, evs, []⟩
      else
        let o := batchLoop outcomes tryParse userApiKey total (i + 1) rest
          (markBatchError results taskId errorMessage)
        ⟨o.results, o.runError, evs ++ o.trace, roundProgress (i + 1) total :: o.progress⟩

/-- `handleBatchGenerate` after task assembly and validation: all tasks start
`'loading'` and the loop runs from position 0.  `taskIds` is the id sequence
of `validTasksWithIds` (distinct by construction in the source). -/
def handleBatchGenerate (outcomes : Nat → Except RawError String)
    (tryParse : String → Option String) (userApiKey : Option String)
    (taskIds : List Nat) : BatchOutcome :=
  batchLoop outcomes tryParse userApiKey taskIds.length 0 taskIds (taskIds.map mkLoading)

/-! ## Bounded-concurrency variation runner
(src/App.tsx, handleStressTestGenerate, lines 755-824; CONCURRENCY_LIMIT = 1,
so the single worker drains the queue sequentially) -/

/-- Observable outcome of a variation run: final per-item results, the
cooldown value after the run, the number of `requestTimestamps` records
pushed, and the scheduling trace. -/
structure StressOutcome where
  results : List StressResult
  cooldown : Int
  requests : Nat
  trace : List Ev
deriving DecidableEq

/-- `setStressTestResults(prev => prev.map(...))` on success. -/
def markStressSuccess (results : List StressResult) (idx : Nat) (imageUrl : String) :
    List StressResult :=
  results.map fun r =>
    if r.id == idx then { r with status := RunStatus.success, imageUrl := some imageUrl }
    else r

/-- `setStressTestResults(prev => prev.map(...))` on failure; only the first
paragraph of the translated message is shown. -/
def markStressError (results : List StressResult) (idx : Nat) (shortMessage : String) :
    List StressResult :=
  results.map fun r =>
    if r.id == idx then { r with status := RunStatus.error, error := some shortMessage }
    else r

/-- The worker loop (lines 788-812).  Each iteration shifts a prompt off the
queue, computes its original position `promptsToUse.length - taskQueue.length - 1`,
waits the pacing delay, records a request timestamp, dispatches, and writes
the per-item result keyed by that position.  A failure whose translated
message matches the cooldown patterns sets the shared cooldown to 60; no
failure aborts the loop.  An empty-string prompt is JavaScript-falsy and is
skipped (`if (!prompt) continue`), unreachable after the caller's validation. -/
def stressLoop (outcomes : Nat → Except RawError String) (tryParse : String → Option String)
    (userApiKey : Option String) (total : Nat) :
    List String → List StressResult → Int → StressOutcome
  | [], results, cooldown => ⟨results, cooldown, 0, []⟩
  | prompt :: restQueue, results, cooldown =>
    if prompt == "" then stressLoop outcomes tryParse userApiKey total restQueue results cooldown
    else
      let index := total - restQueue.length - 1
      match outcomes index with
      | Except.ok imageUrl =>
        let o := stressLoop outcomes tryParse userApiKey total restQueue
          (markStressSuccess results index imageUrl) cooldown
        ⟨o.results, o.cooldown, o.requests + 1, Ev.delay :: Ev.dispatch index :: o.trace⟩
      | Except.error err =>
        let errorMessage := translateApiError tryParse err (jsTruthy userApiKey)
        let cooldown2 :=
          if jsIncludes (jsToLowerCase errorMessage) "hết hạn ngạch" || jsIncludes errorMessage "429"
          then 60 else cooldown
        let o := stressLoop outcomes tryParse userApiKey total restQueue
          (markStressError results index (firstBlock errorMessage)) cooldown2
        ⟨o.results, o.cooldown, o.requests + 1, Ev.delay :: Ev.dispatch index :: o.trace⟩

/-- Initial result entries: `promptsToUse.map((p, i) => ({ id: i, status:
'loading', prompt: p }))`, positions starting at `i`. -/
def stressPending : Nat → List String → List StressResult
  | _, [] => []
  | i, p :: rest => ⟨i, RunStatus.loading, none, none, some p⟩ :: stressPending (i + 1) rest

/-- The variation run after seeding: queue and result collection built from
the prompt list, single worker from an all-`'loading'` state. -/
def stressRun (outcomes : Nat → Except RawError String) (tryParse : String → Option String)
    (userApiKey : Option String) (prompts : List String) (cooldown0 : Int) : StressOutcome :=
  stressLoop outcomes tryParse userApiKey prompts.length prompts (stressPending 0 prompts) cooldown0

/-- `handleStressTestGenerate` (lines 755-782): validation rejects a blank
prompt (`!currentPrompt || !currentPrompt.trim()` — `none` models the
rejected submission), then the quantity is clamped, `quantity` identical
prompts are seeded, and the worker drains them. -/
def handleStressTestGenerate (outcomes : Nat → Except RawError String)
    (tryParse : String → Option String) (userApiKey : Option String)
    (qty : Option Int) (currentPrompt : String) (cooldown0 : Int) : Option StressOutcome :=
  if jsTrim currentPrompt == "" then none
  else
    some (stressRun outcomes tryParse userApiKey
      (List.replicate (stressQuantity qty) currentPrompt) cooldown0)

/-! ## Quality enhancement (src/App.tsx, handleEnhance, lines 475-517) -/

/-- The three enhancement tiers `'HD' | '2K' | '4K'`. -/
inductive Quality where
  | HD
  | twoK
  | fourK
deriving DecidableEq

/-- Observable events of one enhancement operation: an underlying
`enhanceImage` call (with its tier and input image) or the 1.1-second pacing
wait. -/
inductive EnhEv where
  | call (tier : Quality) (input : String)
  | delay
deriving DecidableEq

/-- Pacing check over enhancement traces, as `pacedFrom`. -/
def enhPacedFrom : Bool → List EnhEv → Bool
  | _, [] => true
  | _, EnhEv.delay :: rest => enhPacedFrom true rest
  | ok, EnhEv.call _ _ :: rest => ok && enhPacedFrom false rest

/-- Observable outcome of `handleEnhance`: the image installed by
`setGeneratedImage` on success, the translated error on failure, and the
call/delay trace. -/
structure EnhanceOutcome where
  generatedImage : Option String
  error : Option String
  trace : List EnhEv
deriving DecidableEq

/-- Model of `handleEnhance` (lines 495-517).  `enh k input` is the oracle
for the k-th underlying `enhanceImage` call of this operation.  For `'4K'`
the source issues two calls at the `'4K'` tier with one pacing delay between
them (the first call is issued immediately); for `'HD'`/`'2K'` one call with
no delay.  A thrown error is translated and ends the operation. -/
def handleEnhance (enh : Nat → String → Except RawError String)
    (tryParse : String → Option String) (userApiKey : Option String)
    (generatedImage : String) : Quality → EnhanceOutcome
  | Quality.fourK =>
    match enh 0 generatedImage with
    | Except.error e =>
      ⟨none, some (translateApiError tryParse e (jsTruthy userApiKey)),
       [EnhEv.call Quality.fourK generatedImage]⟩
    | Except.ok result1 =>
      match enh 1 result1 with
      | Except.error e =>
        ⟨none, some (translateApiError tryParse e (jsTruthy userApiKey)),
         [EnhEv.call Quality.fourK generatedImage, EnhEv.delay, EnhEv.call Quality.fourK result1]⟩
      | Except.ok result =>
        ⟨some result, none,
         [EnhEv.call Quality.fourK generatedImage, EnhEv.delay, EnhEv.call Quality.fourK result1]⟩
  | q =>
    match enh 0 generatedImage with
    | Except.error e =>
      ⟨none, some (translateApiError tryParse e (jsTruthy userApiKey)),
       [EnhEv.call q generatedImage]⟩
    | Except.ok result => ⟨some result, none, [EnhEv.call q generatedImage]⟩

/-! ## Expected shapes of completed runs

These definitions give the closed forms the runner loops are proved equal to;
they exist only to state and prove the theorems below. -/

/-- Terminal batch result for the task with id `taskId` at position `i`, when
the run does not abort: success with the image on `ok`, error with the full
translated message otherwise. -/
def expectedBatchResult (outcomes : Nat → Except RawError String)
    (tryParse : String → Option String) (userApiKey : Option String)
    (i taskId : Nat) : BatchResult :=
  match outcomes i with
  | Except.ok imageUrl => ⟨taskId, RunStatus.success, some imageUrl, none⟩
  | Except.error err =>
    ⟨taskId, RunStatus.error, none,
     some (translateApiError tryParse err (jsTruthy userApiKey))⟩

/-- Terminal batch results for the tasks from position `i` on. -/
def batchExpected (outcomes : Nat → Except RawError String)
    (tryParse : String → Option String) (userApiKey : Option String) :
    Nat → List Nat → List BatchResult
  | _, [] => []
  | i, t :: rest =>
    expectedBatchResult outcomes tryParse userApiKey i t ::
      batchExpected outcomes tryParse userApiKey (i + 1) rest

/-- Scheduling trace of a non-aborting batch run from position `i`. -/
def expectedBatchTrace : Nat → List Nat → List Ev
  | _, [] => []
  | i, _ :: rest =>
    (if i > 0 then [Ev.delay] else []) ++ Ev.dispatch i :: expectedBatchTrace (i + 1) rest

/-- Progress values of a non-aborting batch run from position `i`. -/
def expectedBatchProgress (total : Nat) : Nat → List Nat → List Nat
  | _, [] => []
  | i, _ :: rest => roundProgress (i + 1) total :: expectedBatchProgress total (i + 1) rest

/-- Terminal variation-run result for the item at position `i` with prompt
`p`: success with the image on `ok`, error with the first paragraph of the
translated message otherwise. -/
def expectedStressResult (outcomes : Nat → Except RawError String)
    (tryParse : String → Option String) (userApiKey : Option String)
    (i : Nat) (p : String) : StressResult :=
  match outcomes i with
  | Except.ok imageUrl => ⟨i, RunStatus.success, some imageUrl, none, some p⟩
  | Except.error err =>
    ⟨i, RunStatus.error, none,
     some (firstBlock (translateApiError tryParse err (jsTruthy userApiKey))), some p⟩

/-- Terminal variation-run results for the items from position `i` on. -/
def stressExpected (outcomes : Nat → Except RawError String)
    (tryParse : String → Option String) (userApiKey : Option String) :
    Nat → List String → List StressResult
  | _, [] => []
  | i, p :: rest =>
    expectedStressResult outcomes tryParse userApiKey i p ::
      stressExpected outcomes tryParse userApiKey (i + 1) rest

/-- Scheduling trace of a variation run over `n` items from position `i`. -/
def expectedStressTrace : Nat → Nat → List Ev
  | _, 0 => []
  | i, n + 1 => Ev.delay :: Ev.dispatch i :: expectedStressTrace (i + 1) n

/-- The cooldown update applied by the variation worker to one item outcome:
unchanged on success; 60 when the translated failure message matches
`"hết hạn ngạch"` (lowercased) or `"429"`, unchanged otherwise. -/
def stressCooldownUpd (tryParse : String → Option String) (userApiKey : Option String)
    (c : Int) : Except RawError String → Int
  | Except.ok _ => c
  | Except.error err =>
    let errorMessage := translateApiError tryParse err (jsTruthy userApiKey)
    if jsIncludes (jsToLowerCase errorMessage) "hết hạn ngạch" || jsIncludes errorMessage "429"
    then 60 else c

/-- Cooldown after the variation worker processes the `n` items starting at
position `i`, threading the updates in order. -/
def cooldownFold (outcomes : Nat → Except RawError String)
    (tryParse : String → Option String) (userApiKey : Option String) :
    Int → Nat → Nat → Int
  | c, _, 0 => c
  | c, i, n + 1 =>
    cooldownFold outcomes tryParse userApiKey
      (stressCooldownUpd tryParse userApiKey c (outcomes i)) (i + 1) n

/-! ## Lemmas about the batch runner -/

theorem markBatchSuccess_eq_of_ne (t : Nat) (u : String) :
    ∀ results : List BatchResult, (∀ r ∈ results, r.taskId ≠ t) →
      markBatchSuccess results t u = results := by
  intro results
  induction results with
  | nil => intro _; rfl
  | cons r rs ih =>
    intro h
    have h1 : (r.taskId == t) = false := by
      simp [h r (List.mem_cons_self r rs)]
    have h2 : ∀ x ∈ rs, x.taskId ≠ t := fun x hx => h x (List.mem_cons_of_mem r hx)
    simp only [markBatchSuccess, List.map_cons, h1, Bool.false_eq_true, if_false]
    simp only [markBatchSuccess] at ih
    rw [ih h2]

theorem markBatchError_eq_of_ne (t : Nat) (m : String) :
    ∀ results : List BatchResult, (∀ r ∈ results, r.taskId ≠ t) →
      markBatchError results t m = results := by
  intro results
  induction results with
  | nil => intro _; rfl
  | cons r rs ih =>
    intro h
    have h1 : (r.taskId == t) = false := by
      simp [h r (List.mem_cons_self r rs)]
    have h2 : ∀ x ∈ rs, x.taskId ≠ t := fun x hx => h x (List.mem_cons_of_mem r hx)
    simp only [markBatchError, List.map_cons, h1, Bool.false_eq_true, if_false]
    simp only [markBatchError] at ih
    rw [ih h2]

theorem markBatchSuccess_split (done : List BatchResult) (t : Nat) (rest : List Nat)
    (u : String) (hd : ∀ r ∈ done, r.taskId ≠ t) (hr : t ∉ rest) :
    markBatchSuccess (done ++ mkLoading t :: rest.map mkLoading) t u =
      (done ++ [⟨t, RunStatus.success, some u, none⟩]) ++ rest.map mkLoading := by
  have htail : ∀ r ∈ rest.map mkLoading, r.taskId ≠ t := by
    intro r hrm
    rcases List.mem_map.mp hrm with ⟨a, ha, rfl⟩
    rw [show (mkLoading a).taskId = a from rfl]
    intro h
    exact hr (h ▸ ha)
  simp only [markBatchSuccess, List.map_append, List.map_cons]
  rw [show (List.map (fun r =>
        if r.taskId == t then { r with status := RunStatus.success, imageUrl := some u }
        else r) done) = markBatchSuccess done t u from rfl,
      markBatchSuccess_eq_of_ne t u done hd,
      show (List.map (fun r =>
        if r.taskId == t then { r with status := RunStatus.success, imageUrl := some u }
        else r) (rest.map mkLoading)) = markBatchSuccess (rest.map mkLoading) t u from rfl,
      markBatchSuccess_eq_of_ne t u (rest.map mkLoading) htail]
  simp [mkLoading]

theorem markBatchError_split (done : List BatchResult) (t : Nat) (rest : List Nat)
    (m : String) (hd : ∀ r ∈ done, r.taskId ≠ t) (hr : t ∉ rest) :
    markBatchError (done ++ mkLoading t :: rest.map mkLoading) t m =
      (done ++ [⟨t, RunStatus.error, none, some m⟩]) ++ rest.map mkLoading := by
  have htail : ∀ r ∈ rest.map mkLoading, r.taskId ≠ t := by
    intro r hrm
    rcases List.mem_map.mp hrm with ⟨a, ha, rfl⟩
    rw [show (mkLoading a).taskId = a from rfl]
    intro h
    exact hr (h ▸ ha)
  simp only [markBatchError, List.map_append, List.map_cons]
  rw [show (List.map (fun r =>
        if r.taskId == t then { r with status := RunStatus.error, error := some m }
        else r) done) = markBatchError done t m from rfl,
      markBatchError_eq_of_ne t m done hd,
      show (List.map (fun r =>
        if r.taskId == t then { r with status := RunStatus.error, error := some m }
        else r) (rest.map mkLoading)) = markBatchError (rest.map mkLoading) t m from rfl,
      markBatchError_eq_of_ne t m (rest.map mkLoading) htail]
  simp [mkLoading]

/-- Completed-run shape of the batch loop when no outcome triggers the
global abort: every task is dispatched in order and ends in the terminal
state matching its own outcome; no run-level error is set. -/
theorem batchLoop_complete (outcomes : Nat → Except RawError String)
    (tryParse : String → Option String) (userApiKey : Option String) (total : Nat) :
    ∀ (l : List Nat) (i : Nat) (done : List BatchResult),
      (∀ j, j < l.length → abortsRun userApiKey (outcomes (i + j)) = false) →
      l.Nodup →
      (∀ r, r ∈ done → r.taskId ∉ l) →
      batchLoop outcomes tryParse userApiKey total i l (done ++ l.map mkLoading) =
        ⟨done ++ batchExpected outcomes tryParse userApiKey i l, none,
         expectedBatchTrace i l, expectedBatchProgress total i l⟩ := by
  intro l
  induction l with
  | nil =>
    intro i done _ _ _
    simp [batchLoop, batchExpected, expectedBatchTrace, expectedBatchProgress]
  | cons t rest ih =>
    intro i done habort hnodup hdone
    have h0 : abortsRun userApiKey (outcomes i) = false := by
      have := habort 0 (by simp)
      simpa using this
    have hdt : ∀ r ∈ done, r.taskId ≠ t := by
      intro r hr h
      exact hdone r hr (h ▸ List.mem_cons_self t rest)
    have htr : t ∉ rest := (List.nodup_cons.mp hnodup).1
    have hrestnodup : rest.Nodup := (List.nodup_cons.mp hnodup).2
    have habort2 : ∀ j, j < rest.length → abortsRun userApiKey (outcomes (i + 1 + j)) = false := by
      intro j hj
      have := habort (j + 1) (by simpa using Nat.succ_lt_succ hj)
      simpa [Nat.add_assoc, Nat.add_comm 1 j] using this
    simp only [List.map_cons]
    cases ho : outcomes i with
    | ok u =>
      have hmark := markBatchSuccess_split done t rest u hdt htr
      have hdone2 : ∀ r, r ∈ done ++ [(⟨t, RunStatus.success, some u, none⟩ : BatchResult)] →
          r.taskId ∉ rest := by
        intro r hr
        rcases List.mem_append.mp hr with hr | hr
        · exact fun h => hdone r hr (List.mem_cons_of_mem t h)
        · simp at hr
          subst hr
          exact htr
      have := ih (i + 1) (done ++ [⟨t, RunStatus.success, some u, none⟩]) habort2
        hrestnodup hdone2
      simp only [batchLoop, ho, hmark, this]
      simp [batchExpected, expectedBatchResult, ho, expectedBatchTrace, expectedBatchProgress]
    | error e =>
      have hcond : (isQuotaError e && !jsTruthy userApiKey) = false := by
        simpa [abortsRun, ho] using h0
      have hmark := markBatchError_split done t rest
        (translateApiError tryParse e (jsTruthy userApiKey)) hdt htr
      have hdone2 : ∀ r, r ∈ done ++
          [(⟨t, RunStatus.error, none,
             some (translateApiError tryParse e (jsTruthy userApiKey))⟩ : BatchResult)] →
          r.taskId ∉ rest := by
        intro r hr
        rcases List.mem_append.mp hr with hr | hr
        · exact fun h => hdone r hr (List.mem_cons_of_mem t h)
        · simp at hr
          subst hr
          exact htr
      have := ih (i + 1)
        (done ++ [⟨t, RunStatus.error, none,
          some (translateApiError tryParse e (jsTruthy userApiKey))⟩]) habort2
        hrestnodup hdone2
      simp only [batchLoop, ho, hcond, Bool.false_eq_true, if_false, hmark, this]
      simp [batchExpected, expectedBatchResult, ho, expectedBatchTrace, expectedBatchProgress]

/-- Abort shape of the batch loop: when position `k` (relative to `i`) is ths
first abort-triggering outcome, the results are cleared, one run-level error
is set, and exactly the positions up to the failing one are dispatched. -/
theorem batchLoop_abort (outcomes : Nat → Except RawError String)
    (tryParse : String → Option String) (userApiKey : Option String) (total : Nat) :
    ∀ (l : List Nat) (k i : Nat) (results : List BatchResult),
      k < l.length →
      (∀ j, j < k → abortsRun userApiKey (outcomes (i + j)) = false) →
      abortsRun userApiKey (outcomes (i + k)) = true →
      (batchLoop outcomes tryParse userApiKey total i l results).results = [] ∧
      (batchLoop outcomes tryParse userApiKey total i l results).runError.isSome = true ∧
      dispatches (batchLoop outcomes tryParse userApiKey total i l results).trace =
        List.range' i (k + 1) := by
  intro l
  induction l with
  | nil =>
    intro k i results hk
    exact absurd hk (by simp)
  | cons t rest ih =>
    intro k i results hk hpre habort
    cases k with
    | zero =>
      simp only [Nat.add_zero] at habort
      cases ho : outcomes i with
      | ok u => simp [abortsRun, ho] at habort
      | error e =>
        have hcond : (isQuotaError e && !jsTruthy userApiKey) = true := by
          simpa [abortsRun, ho] using habort
        cases i with
        | zero => simp [batchLoop, ho, hcond, dispatches, List.range']
        | succ n => simp [batchLoop, ho, hcond, dispatches, List.range']
    | succ k2 =>
      have h0 : abortsRun userApiKey (outcomes i) = false := by
        have := hpre 0 (Nat.succ_pos k2)
        simpa using this
      have hpre2 : ∀ j, j < k2 → abortsRun userApiKey (outcomes (i + 1 + j)) = false := by
        intro j hj
        have := hpre (j + 1) (Nat.succ_lt_succ hj)
        simpa [Nat.add_assoc, Nat.add_comm 1 j] using this
      have habort2 : abortsRun userApiKey (outcomes (i + 1 + k2)) = true := by
        simpa [Nat.add_assoc, Nat.add_comm 1 k2] using habort
      have hk2 : k2 < rest.length := Nat.lt_of_succ_lt_succ hk
      cases ho : outcomes i with
      | ok u =>
        have hrec := ih k2 (i + 1) (markBatchSuccess results t u) hk2 hpre2 habort2
        simp only [batchLoop, ho]
        refine ⟨hrec.1, hrec.2.1, ?_⟩
        have : dispatches
            ((if i > 0 then [Ev.delay] else []) ++ [Ev.dispatch i] ++
              (batchLoop outcomes tryParse userApiKey total (i + 1) rest
                (markBatchSuccess results t u)).trace) =
            i :: dispatches (batchLoop outcomes tryParse userApiKey total (i + 1) rest
                (markBatchSuccess results t u)).trace := by
          cases i with
          | zero => simp [dispatches]
          | succ n => simp [dispatches]
        simp only [List.append_assoc, List.cons_append, List.nil_append] at this ⊢
        rw [this, hrec.2.2]
        simp [List.range']
      | error e =>
        have hcond : (isQuotaError e && !jsTruthy userApiKey) = false := by
          simpa [abortsRun, ho] using h0
        have hrec := ih k2 (i + 1)
          (markBatchError results t (translateApiError tryParse e (jsTruthy userApiKey)))
          hk2 hpre2 habort2
        simp only [batchLoop, ho, hcond, Bool.false_eq_true, if_false]
        refine ⟨hrec.1, hrec.2.1, ?_⟩
        have : dispatches
            ((if i > 0 then [Ev.delay] else []) ++ [Ev.dispatch i] ++
              (batchLoop outcomes tryParse userApiKey total (i + 1) rest
                (markBatchError results t
                  (translateApiError tryParse e (jsTruthy userApiKey)))).trace) =
            i :: dispatches (batchLoop outcomes tryParse userApiKey total (i + 1) rest
                (markBatchError results t
                  (translateApiError tryParse e (jsTruthy userApiKey)))).trace := by
          cases i with
          | zero => simp [dispatches]
          | succ n => simp [dispatches]
        simp only [List.append_assoc, List.cons_append, List.nil_append] at this ⊢
        rw [this, hrec.2.2]
        simp [List.range']



/-- Every dispatch after the first batch position is preceded by a pacing
delay (holds for aborting and non-aborting runs alike). -/
theorem batchLoop_paced (outcomes : Nat → Except RawError String)
    (tryParse : String → Option String) (userApiKey : Option String) (total : Nat) :
    ∀ (l : List Nat) (i : Nat) (results : List BatchResult), 0 < i →
      pacedFrom false (batchLoop outcomes tryParse userApiKey total i l results).trace = true := by
  intro l
  induction l with
  | nil => intro i results _; simp [batchLoop, pacedFrom]
  | cons t rest ih =>
    intro i results hi
    have hi1 : (i > 0) = True := by simp [hi]
    cases ho : outcomes i with
    | ok u =>
      simp only [batchLoop, ho, hi1, if_true]
      simp only [List.append_assoc, List.cons_append, List.nil_append, pacedFrom]
      exact ih (i + 1) (markBatchSuccess results t u) (Nat.succ_pos i)
    | error e =>
      cases hcond : (isQuotaError e && !jsTruthy userApiKey) with
      | true =>
        simp only [batchLoop, ho, hcond, if_true, hi1]
        simp [pacedFrom]
      | false =>
        simp only [batchLoop, ho, hcond, Bool.false_eq_true, if_false, hi1, if_true]
        simp only [List.append_assoc, List.cons_append, List.nil_append, pacedFrom]
        exact ih (i + 1)
          (markBatchError results t (translateApiError tryParse e (jsTruthy userApiKey)))
          (Nat.succ_pos i)

/-- The full batch trace satisfies the pacing discipline with the single
first-dispatch exemption, and its first event is the undelayed dispatch of
position 0. -/
theorem batchLoop_paced_zero (outcomes : Nat → Except RawError String)
    (tryParse : String → Option String) (userApiKey : Option String) (total : Nat)
    (l : List Nat) (results : List BatchResult) :
    pacedFrom true (batchLoop outcomes tryParse userApiKey total 0 l results).trace = true ∧
    (l ≠ [] → (batchLoop outcomes tryParse userApiKey total 0 l results).trace.head? =
      some (Ev.dispatch 0)) := by
  cases l with
  | nil => simp [batchLoop, pacedFrom]
  | cons t rest =>
    cases ho : outcomes 0 with
    | ok u =>
      simp only [batchLoop, ho, gt_iff_lt, Nat.lt_irrefl, if_false, List.nil_append,
        List.cons_append]
      constructor
      · simp only [pacedFrom, Bool.true_and]
        exact batchLoop_paced outcomes tryParse userApiKey total rest 1
          (markBatchSuccess results t u) Nat.one_pos
      · intro _; rfl
    | error e =>
      cases hcond : (isQuotaError e && !jsTruthy userApiKey) with
      | true =>
        simp only [batchLoop, ho, hcond, if_true, gt_iff_lt, Nat.lt_irrefl, if_false,
          List.nil_append]
        constructor
        · simp [pacedFrom]
        · intro _; rfl
      | false =>
        simp only [batchLoop, ho, hcond, Bool.false_eq_true, if_false, gt_iff_lt,
          Nat.lt_irrefl, List.nil_append, List.cons_append]
        constructor
        · simp only [pacedFrom, Bool.true_and]
          exact batchLoop_paced outcomes tryParse userApiKey total rest 1
            (markBatchError results t (translateApiError tryParse e (jsTruthy userApiKey)))
            Nat.one_pos
        · intro _; rfl

/-- Every dispatch of the variation worker, including the first, is preceded
by a pacing delay. -/
theorem stressLoop_paced (outcomes : Nat → Except RawError String)
    (tryParse : String → Option String) (userApiKey : Option String) (total : Nat) :
    ∀ (queue : List String) (results : List StressResult) (c : Int),
      pacedFrom false
        (stressLoop outcomes tryParse userApiKey total queue results c).trace = true := by
  intro queue
  induction queue with
  | nil => intro results c; simp [stressLoop, pacedFrom]
  | cons p rest ih =>
    intro results c
    cases hp : (p == "") with
    | true => simp only [stressLoop, hp, if_true]; exact ih results c
    | false =>
      cases ho : outcomes (total - rest.length - 1) with
      | ok u =>
        simp only [stressLoop, hp, Bool.false_eq_true, if_false, ho]
        simp only [pacedFrom, Bool.true_and]
        exact ih _ c
      | error e =>
        simp only [stressLoop, hp, Bool.false_eq_true, if_false, ho]
        simp only [pacedFrom, Bool.true_and]
        exact ih _ _

/-! ## Lemmas about the variation runner -/

theorem markStressSuccess_eq_of_ne (idx : Nat) (u : String) :
    ∀ results : List StressResult, (∀ r ∈ results, r.id ≠ idx) →
      markStressSuccess results idx u = results := by
  intro results
  induction results with
  | nil => intro _; rfl
  | cons r rs ih =>
    intro h
    have h1 : (r.id == idx) = false := by
      simp [h r (List.mem_cons_self r rs)]
    have h2 : ∀ x ∈ rs, x.id ≠ idx := fun x hx => h x (List.mem_cons_of_mem r hx)
    simp only [markStressSuccess, List.map_cons, h1, Bool.false_eq_true, if_false]
    simp only [markStressSuccess] at ih
    rw [ih h2]

theorem markStressError_eq_of_ne (idx : Nat) (m : String) :
    ∀ results : List StressResult, (∀ r ∈ results, r.id ≠ idx) →
      markStressError results idx m = results := by
  intro results
  induction results with
  | nil => intro _; rfl
  | cons r rs ih =>
    intro h
    have h1 : (r.id == idx) = false := by
      simp [h r (List.mem_cons_self r rs)]
    have h2 : ∀ x ∈ rs, x.id ≠ idx := fun x hx => h x (List.mem_cons_of_mem r hx)
    simp only [markStressError, List.map_cons, h1, Bool.false_eq_true, if_false]
    simp only [markStressError] at ih
    rw [ih h2]

theorem stressPending_id_ge : ∀ (q : List String) (j : Nat) (r : StressResult),
    r ∈ stressPending j q → j ≤ r.id := by
  intro q
  induction q with
  | nil => intro j r hr; simp [stressPending] at hr
  | cons p rest ih =>
    intro j r hr
    simp only [stressPending, List.mem_cons] at hr
    rcases hr with rfl | hr
    · exact Nat.le_refl j
    · exact Nat.le_of_succ_le (ih (j + 1) r hr)

theorem markStressSuccess_split (done : List StressResult) (i : Nat) (p : String)
    (rest : List String) (u : String) (hd : ∀ r ∈ done, r.id < i) :
    markStressSuccess
        (done ++ (⟨i, RunStatus.loading, none, none, some p⟩ : StressResult) ::
          stressPending (i + 1) rest) i u =
      (done ++ [(⟨i, RunStatus.success, some u, none, some p⟩ : StressResult)]) ++
        stressPending (i + 1) rest := by
  have hdn : ∀ r ∈ done, r.id ≠ i := fun r hr => Nat.ne_of_lt (hd r hr)
  have htail : ∀ r ∈ stressPending (i + 1) rest, r.id ≠ i := by
    intro r hr h
    have := stressPending_id_ge rest (i + 1) r hr
    omega
  simp only [markStressSuccess, List.map_append, List.map_cons]
  rw [show (List.map (fun r =>
        if r.id == i then { r with status := RunStatus.success, imageUrl := some u }
        else r) done) = markStressSuccess done i u from rfl,
      markStressSuccess_eq_of_ne i u done hdn,
      show (List.map (fun r =>
        if r.id == i then { r with status := RunStatus.success, imageUrl := some u }
        else r) (stressPending (i + 1) rest)) =
        markStressSuccess (stressPending (i + 1) rest) i u from rfl,
      markStressSuccess_eq_of_ne i u (stressPending (i + 1) rest) htail]
  simp

theorem markStressError_split (done : List StressResult) (i : Nat) (p : String)
    (rest : List String) (m : String) (hd : ∀ r ∈ done, r.id < i) :
    markStressError
        (done ++ (⟨i, RunStatus.loading, none, none, some p⟩ : StressResult) ::
          stressPending (i + 1) rest) i m =
      (done ++ [(⟨i, RunStatus.error, none, some m, some p⟩ : StressResult)]) ++
        stressPending (i + 1) rest := by
  have hdn : ∀ r ∈ done, r.id ≠ i := fun r hr => Nat.ne_of_lt (hd r hr)
  have htail : ∀ r ∈ stressPending (i + 1) rest, r.id ≠ i := by
    intro r hr h
    have := stressPending_id_ge rest (i + 1) r hr
    omega
  simp only [markStressError, List.map_append, List.map_cons]
  rw [show (List.map (fun r =>
        if r.id == i then { r with status := RunStatus.error, error := some m }
        else r) done) = markStressError done i m from rfl,
      markStressError_eq_of_ne i m done hdn,
      show (List.map (fun r =>
        if r.id == i then { r with status := RunStatus.error, error := some m }
        else r) (stressPending (i + 1) rest)) =
        markStressError (stressPending (i + 1) rest) i m from rfl,
      markStressError_eq_of_ne i m (stressPending (i + 1) rest) htail]
  simp

/-- Completed-run shape of the variation worker: the worker never aborts, so
every queued item is dispatched in order, each item ends in the terminal
state matching its own outcome, the cooldown is the fold of the per-failure
updates, and one request is recorded per item. -/
theorem stressLoop_complete (outcomes : Nat → Except RawError String)
    (tryParse : String → Option String) (userApiKey : Option String) (total : Nat) :
    ∀ (queue : List String) (done : List StressResult) (c : Int),
      (∀ p ∈ queue, p ≠ "") →
      queue.length ≤ total →
      (∀ r ∈ done, r.id < total - queue.length) →
      stressLoop outcomes tryParse userApiKey total queue
          (done ++ stressPending (total - queue.length) queue) c =
        ⟨done ++ stressExpected outcomes tryParse userApiKey (total - queue.length) queue,
         cooldownFold outcomes tryParse userApiKey c (total - queue.length) queue.length,
         queue.length,
         expectedStressTrace (total - queue.length) queue.length⟩ := by
  intro queue
  induction queue with
  | nil =>
    intro done c _ _ _
    simp [stressLoop, stressPending, stressExpected, cooldownFold, expectedStressTrace]
  | cons p rest ih =>
    intro done c hne hlen hdone
    have hp : (p == "") = false := by
      simp [hne p (List.mem_cons_self p rest)]
    have hlen2 : rest.length ≤ total := by
      simp only [List.length_cons] at hlen
      omega
    set i := total - (p :: rest).length with hi
    have hidx : total - rest.length - 1 = i := by
      simp only [hi, List.length_cons]
      omega
    have hnext : total - rest.length = i + 1 := by
      simp only [hi, List.length_cons]
      simp only [List.length_cons] at hlen
      omega
    have hne2 : ∀ q ∈ rest, q ≠ "" := fun q hq => hne q (List.mem_cons_of_mem p hq)
    have hpend : stressPending i (p :: rest) =
        (⟨i, RunStatus.loading, none, none, some p⟩ : StressResult) ::
          stressPending (i + 1) rest := rfl
    cases ho : outcomes i with
    | ok u =>
      have hdone2 : ∀ r ∈ done ++ [(⟨i, RunStatus.success, some u, none, some p⟩ : StressResult)],
          r.id < total - rest.length := by
        intro r hr
        rcases List.mem_append.mp hr with hr | hr
        · have := hdone r hr
          omega
        · simp at hr
          subst hr
          show i < total - rest.length
          omega
      have hrec := ih (done ++ [⟨i, RunStatus.success, some u, none, some p⟩]) c hne2 hlen2 hdone2
      rw [hnext] at hrec
      simp only [stressLoop, hp, Bool.false_eq_true, if_false, hidx, ho, hpend,
        markStressSuccess_split done i p rest u hdone, hrec]
      simp only [List.length_cons, hnext]
      simp [stressExpected, expectedStressResult, ho, cooldownFold, stressCooldownUpd,
        expectedStressTrace]
    | error e =>
      have hdone2 : ∀ r ∈ done ++
          [(⟨i, RunStatus.error, none,
             some (firstBlock (translateApiError tryParse e (jsTruthy userApiKey))),
             some p⟩ : StressResult)],
          r.id < total - rest.length := by
        intro r hr
        rcases List.mem_append.mp hr with hr | hr
        · have := hdone r hr
          omega
        · simp at hr
          subst hr
          show i < total - rest.length
          omega
      have hrec := ih (done ++
        [⟨i, RunStatus.error, none,
          some (firstBlock (translateApiError tryParse e (jsTruthy userApiKey))), some p⟩])
        (if jsIncludes (jsToLowerCase (translateApiError tryParse e (jsTruthy userApiKey)))
              "hết hạn ngạch" ||
            jsIncludes (translateApiError tryParse e (jsTruthy userApiKey)) "429"
         then 60 else c) hne2 hlen2 hdone2
      rw [hnext] at hrec
      simp only [stressLoop, hp, Bool.false_eq_true, if_false, hidx, ho, hpend,
        markStressError_split done i p rest
          (firstBlock (translateApiError tryParse e (jsTruthy userApiKey))) hdone, hrec]
      simp only [List.length_cons, hnext]
      simp [stressExpected, expectedStressResult, ho, cooldownFold, stressCooldownUpd,
        expectedStressTrace]

/-! ## Derived facts used by the claim theorems -/

theorem dispatches_expectedStressTrace : ∀ (n i : Nat),
    dispatches (expectedStressTrace i n) = List.range' i n := by
  intro n
  induction n with
  | zero => intro i; rfl
  | succ m ih =>
    intro i
    simp only [expectedStressTrace, dispatches, List.filterMap_cons]
    simp only [dispatches] at ih
    rw [ih (i + 1)]
    simp [List.range']

theorem dispatches_expectedBatchTrace : ∀ (l : List Nat) (i : Nat),
    dispatches (expectedBatchTrace i l) = List.range' i l.length := by
  intro l
  induction l with
  | nil => intro i; rfl
  | cons t rest ih =>
    intro i
    simp only [expectedBatchTrace, dispatches, List.filterMap_append, List.filterMap_cons]
    simp only [dispatches] at ih
    rw [ih (i + 1)]
    cases i with
    | zero => simp [List.range']
    | succ n => simp [List.range']

theorem cooldownFold_all_ok (outcomes : Nat → Except RawError String)
    (tryParse : String → Option String) (userApiKey : Option String) :
    ∀ (n i : Nat) (c : Int),
      (∀ j, i ≤ j → j < i + n → ∃ u, outcomes j = Except.ok u) →
      cooldownFold outcomes tryParse userApiKey c i n = c := by
  intro n
  induction n with
  | zero => intro i c _; rfl
  | succ m ih =>
    intro i c h
    rcases h i (Nat.le_refl i) (by omega) with ⟨u, hu⟩
    simp only [cooldownFold, hu, stressCooldownUpd]
    exact ih (i + 1) c (fun j hj1 hj2 => h j (by omega) (by omega))

theorem cooldownFold_one_error (outcomes : Nat → Except RawError String)
    (tryParse : String → Option String) (userApiKey : Option String) (k : Nat) :
    ∀ (n i : Nat) (c : Int),
      (∀ j, i ≤ j → j < i + n → j ≠ k → ∃ u, outcomes j = Except.ok u) →
      i ≤ k → k < i + n →
      cooldownFold outcomes tryParse userApiKey c i n =
        stressCooldownUpd tryParse userApiKey c (outcomes k) := by
  intro n
  induction n with
  | zero => intro i c _ h1 h2; omega
  | succ m ih =>
    intro i c h hik hk
    by_cases hi : i = k
    · subst hi
      simp only [cooldownFold]
      apply cooldownFold_all_ok
      intro j hj1 hj2
      exact h j (by omega) (by omega) (by omega)
    · have hiklt : i < k := Nat.lt_of_le_of_ne hik hi
      rcases h i (Nat.le_refl i) (by omega) (by omega) with ⟨u, hu⟩
      simp only [cooldownFold, hu, stressCooldownUpd]
      exact ih (i + 1) c (fun j a b c2 => h j (by omega) (by omega) c2) (by omega) (by omega)

theorem stressExpected_length (outcomes : Nat → Except RawError String)
    (tryParse : String → Option String) (userApiKey : Option String) :
    ∀ (q : List String) (i : Nat),
      (stressExpected outcomes tryParse userApiKey i q).length = q.length := by
  intro q
  induction q with
  | nil => intro i; rfl
  | cons p rest ih => intro i; simp [stressExpected, ih (i + 1)]

theorem stressExpected_ids (outcomes : Nat → Except RawError String)
    (tryParse : String → Option String) (userApiKey : Option String) :
    ∀ (q : List String) (i : Nat),
      (stressExpected outcomes tryParse userApiKey i q).map StressResult.id =
        List.range' i q.length := by
  intro q
  induction q with
  | nil => intro i; rfl
  | cons p rest ih =>
    intro i
    have hid : (expectedStressResult outcomes tryParse userApiKey i p).id = i := by
      cases ho : outcomes i <;> simp [expectedStressResult, ho]
    simp [stressExpected, hid, ih (i + 1), List.range']

theorem stressExpected_terminal (outcomes : Nat → Except RawError String)
    (tryParse : String → Option String) (userApiKey : Option String) :
    ∀ (q : List String) (i : Nat) (r : StressResult),
      r ∈ stressExpected outcomes tryParse userApiKey i q →
      r.status = RunStatus.success ∨ r.status = RunStatus.error := by
  intro q
  induction q with
  | nil => intro i r hr; simp [stressExpected] at hr
  | cons p rest ih =>
    intro i r hr
    simp only [stressExpected, List.mem_cons] at hr
    rcases hr with rfl | hr
    · cases ho : outcomes i <;> simp [expectedStressResult, ho]
    · exact ih (i + 1) r hr

theorem stressExpected_status_get (outcomes : Nat → Except RawError String)
    (tryParse : String → Option String) (userApiKey : Option String) :
    ∀ (q : List String) (i j : Nat), j < q.length →
      ((stressExpected outcomes tryParse userApiKey i q).get? j).map StressResult.status =
        some (match outcomes (i + j) with
              | Except.ok _ => RunStatus.success
              | Except.error _ => RunStatus.error) := by
  intro q
  induction q with
  | nil => intro i j hj; simp at hj
  | cons p rest ih =>
    intro i j hj
    cases j with
    | zero =>
      cases ho : outcomes (i + 0) with
      | ok u => simp only [Nat.add_zero] at ho; simp [stressExpected, expectedStressResult, ho]
      | error e => simp only [Nat.add_zero] at ho; simp [stressExpected, expectedStressResult, ho]
    | succ j2 =>
      have := ih (i + 1) j2 (by simpa using Nat.lt_of_succ_lt_succ hj)
      simp only [stressExpected, List.get?_cons_succ]
      rw [this]
      have : i + 1 + j2 = i + (j2 + 1) := by omega
      rw [this]

/-- When the classifier reports quota exhaustion, the translated message is
exactly the quota message for the given credential mode. -/
theorem translate_of_quota (tryParse : String → Option String) (e : RawError) (b : Bool)
    (h : classifyKind e = ErrorKind.quotaExhausted) :
    translateApiError tryParse e b = if b then msgQuotaUserKey else msgQuotaDefault := by
  cases e with
  | nonError => simp [classifyKind] at h
  | err m =>
    cases hinv : invalidKeyPat m with
    | true => simp [classifyKind, hinv] at h
    | false =>
      cases hq : quotaPat m with
      | true => simp [translateApiError, hinv, hq]
      | false =>
        cases hs : safetyPat m <;> cases hm : modelErrPat m <;> cases hn : noKeyPat m <;>
          cases hw : networkPat m <;> simp [classifyKind, hinv, hq, hs, hm, hn, hw] at h

/-- A quota-classified error is a quota error in the batch runner's test. -/
theorem isQuotaError_of_quota (e : RawError)
    (h : classifyKind e = ErrorKind.quotaExhausted) : isQuotaError e = true := by
  cases e with
  | nonError => simp [classifyKind] at h
  | err m =>
    cases hinv : invalidKeyPat m with
    | true => simp [classifyKind, hinv] at h
    | false =>
      cases hq : quotaPat m with
      | true => simpa [isQuotaError, quotaPat] using hq
      | false =>
        cases hs : safetyPat m <;> cases hm : modelErrPat m <;> cases hn : noKeyPat m <;>
          cases hw : networkPat m <;> simp [classifyKind, hinv, hq, hs, hm, hn, hw] at h

/-- Resolution yields no credential exactly when the user key is absent or
whitespace and the default is absent or empty. -/
theorem resolveApiKey_eq_none (u e : Option String)
    (hu : ∀ k, u = some k → jsTrim k = "") (he : ∀ k, e = some k → k = "") :
    resolveApiKey u e = none := by
  cases u with
  | none =>
    cases e with
    | none => rfl
    | some k => rw [he k rfl]; rfl
  | some k =>
    have hk := hu k rfl
    cases e with
    | none => simp [resolveApiKey, hk]
    | some d => have hd := he d rfl; subst hd; simp [resolveApiKey, hk]

/-- A user credential that is non-empty after trimming always resolves. -/
theorem resolveApiKey_user (u : String) (e : Option String) (h : jsTrim u ≠ "") :
    resolveApiKey (some u) e = some (jsTrim u) := by
  simp [resolveApiKey, h]

/-! ## Claim theorems -/

/-- Claim C2 (confirmed): the classifier applies its rules in priority order.
A message matching the invalid-credential pattern together with any later
pattern is classified `InvalidCredential`; a message matching the quota
pattern is never classified as the generic `NetworkError` or `Unknown` kind,
and — when the higher-priority invalid-credential rule does not capture it —
is classified `QuotaExhausted` with distinct user messages for the two
credential modes. -/
theorem classifier_priority_order : ∀ (m : String) (tryParse : String → Option String),
    (invalidKeyPat m = true →
      (quotaPat m || safetyPat m || modelErrPat m || noKeyPat m || networkPat m) = true →
      classifyKind (RawError.err m) = ErrorKind.invalidCredential) ∧
    (quotaPat m = true →
      classifyKind (RawError.err m) ≠ ErrorKind.networkError ∧
      classifyKind (RawError.err m) ≠ ErrorKind.unknown) ∧
    (quotaPat m = true → invalidKeyPat m = false →
      classifyKind (RawError.err m) = ErrorKind.quotaExhausted ∧
      translateApiError tryParse (RawError.err m) true ≠
        translateApiError tryParse (RawError.err m) false) := by
  intro m tryParse
  refine ⟨?_, ?_, ?_⟩
  · intro h1 _
    simp [classifyKind, h1]
  · intro hq
    cases hinv : invalidKeyPat m with
    | true => simp [classifyKind, hinv]
    | false => simp [classifyKind, hinv, hq]
  · intro hq hinv
    constructor
    · simp [classifyKind, hinv, hq]
    · simp only [translateApiError, hinv, Bool.false_eq_true, if_false, hq, if_true]
      decide

/-- Witness for C2 at concrete messages. -/
theorem classifier_priority_order_witness :
    (classifyKind (RawError.err "PERMISSION_DENIED 429") = ErrorKind.invalidCredential) ∧
    (classifyKind (RawError.err "429") ≠ ErrorKind.networkError ∧
      classifyKind (RawError.err "429") ≠ ErrorKind.unknown) ∧
    (classifyKind (RawError.err "429") = ErrorKind.quotaExhausted ∧
      translateApiError (fun _ => none) (RawError.err "429") true ≠
        translateApiError (fun _ => none) (RawError.err "429") false) :=
  ⟨(classifier_priority_order "PERMISSION_DENIED 429" (fun _ => none)).1 (by decide) (by decide),
   (classifier_priority_order "429" (fun _ => none)).2.1 (by decide),
   (classifier_priority_order "429" (fun _ => none)).2.2 (by decide) (by decide)⟩

/-- Claim C5, counterexample: at a read at t = 66 s over calls at t = 0 s,
10 s, 65 s, the t = 10 s call is only 56 s old, so two calls are retained
(not one) and the remaining reading is 58, not 59 as the claim states. -/
theorem rate_window_example_counterexample :
    pruneTimestamps 66000 [0, 10000, 65000] = [10000, 65000] ∧
    remainingRequests (pruneTimestamps 66000 [0, 10000, 65000]).length = 58 ∧
    remainingRequests (pruneTimestamps 66000 [0, 10000, 65000]).length ≠ 59 := by
  refine ⟨?_, ?_, ?_⟩ <;> decide

/-- Claim C5 (amended): the tick retains exactly the timestamps strictly
younger than 60 s and the reading is 60 minus their count; on the claimed
example the retained calls are those at t = 10 s and t = 65 s and the
reading is 58. -/
theorem rate_window_amended : ∀ (now : Int) (ts : List Int) (t : Int),
    (t ∈ pruneTimestamps now ts ↔ t ∈ ts ∧ now - t < 60000) ∧
    pruneTimestamps 66000 [0, 10000, 65000] = [10000, 65000] ∧
    remainingRequests (pruneTimestamps 66000 [0, 10000, 65000]).length = 58 := by
  intro now ts t
  refine ⟨?_, by decide, by decide⟩
  simp only [pruneTimestamps, List.mem_filter, decide_eq_true_eq]
  constructor
  · rintro ⟨h1, h2⟩
    exact ⟨h1, by omega⟩
  · rintro ⟨h1, h2⟩
    exact ⟨h1, by omega⟩

/-- Witness for C5 (amended) at a concrete timestamp. -/
theorem rate_window_amended_witness :
    ((10000 : Int) ∈ pruneTimestamps 66000 [0, 10000, 65000] ↔
      (10000 : Int) ∈ ([0, 10000, 65000] : List Int) ∧ (66000 : Int) - 10000 < 60000) ∧
    pruneTimestamps 66000 [0, 10000, 65000] = [10000, 65000] :=
  ⟨(rate_window_amended 66000 [0, 10000, 65000] 10000).1,
   (rate_window_amended 66000 [0, 10000, 65000] 10000).2.1⟩

/-- Claim C9, counterexample: with the cooldown positive (5 s remaining) a
batch-run submission is still accepted — the batch generate gate consults
only `isBatchLoading` — while the variation gate does reject. -/
theorem cooldown_gate_counterexample :
    (0 : Int) < 5 ∧
    batchSubmitEnabled false 5 = true ∧
    stressSubmitEnabled false 5 = false := by
  refine ⟨?_, ?_, ?_⟩ <;> decide

/-- Claim C9 (amended): while the cooldown is positive every new variation
run submission is rejected, but a batch submission is gated only on a batch
already running; the tick decrements a positive cooldown by exactly one and
the result is never negative. -/
theorem cooldown_gate_amended : ∀ (c : Int) (isStressTesting isBatchLoading : Bool),
    (0 < c → stressSubmitEnabled isStressTesting c = false) ∧
    batchSubmitEnabled isBatchLoading c = !isBatchLoading ∧
    0 ≤ tickCooldown c ∧
    (0 < c → tickCooldown c = c - 1) ∧
    (c ≤ 0 → tickCooldown c = 0) := by
  intro c st bl
  refine ⟨?_, rfl, ?_, ?_, ?_⟩
  · intro h
    simp [stressSubmitEnabled, h]
  · unfold tickCooldown
    split <;> omega
  · intro h
    unfold tickCooldown
    rw [if_pos h]
  · intro h
    unfold tickCooldown
    rw [if_neg (by omega)]

/-- Witness for C9 (amended) at cooldown 5. -/
theorem cooldown_gate_amended_witness :
    stressSubmitEnabled false 5 = false ∧ tickCooldown 5 = 5 - 1 ∧ tickCooldown (-3) = 0 :=
  ⟨(cooldown_gate_amended 5 false false).1 (by decide),
   (cooldown_gate_amended 5 false false).2.2.2.1 (by decide),
   (cooldown_gate_amended (-3) false false).2.2.2.2 (by decide)⟩

/-- Claim C7 (confirmed): a user credential that is non-empty after trimming
is the one used for the upstream call; only an absent or whitespace-only
user credential falls back to the configured default. -/
theorem credential_precedence : ∀ (upstream : String → UpstreamResp)
    (gparse : String → GoogleParse) (u : String) (e : Option String) (d : String),
    (jsTrim u ≠ "" →
      (onRequestPost upstream gparse (some u) e).upstreamKey = some (jsTrim u)) ∧
    (jsTrim u = "" → e = some d → d ≠ "" →
      (onRequestPost upstream gparse (some u) e).upstreamKey = some d) ∧
    (e = some d → d ≠ "" →
      (onRequestPost upstream gparse none e).upstreamKey = some d) := by
  intro upstream gparse u e d
  refine ⟨?_, ?_, ?_⟩
  · intro h
    simp only [onRequestPost, resolveApiKey_user u e h]
    cases upstream (jsTrim u) <;> rfl
  · intro h1 h2 h3
    subst h2
    have hres : resolveApiKey (some u) (some d) = some d := by
      simp [resolveApiKey, h1, h3]
    simp only [onRequestPost, hres]
    cases upstream d <;> rfl
  · intro h2 h3
    subst h2
    have hres : resolveApiKey none (some d) = some d := by
      simp [resolveApiKey, h3]
    simp only [onRequestPost, hres]
    cases upstream d <;> rfl

/-- Witness for C7 at concrete credentials. -/
theorem credential_precedence_witness :
    (onRequestPost (fun _ => UpstreamResp.ok "body") (fun _ => GoogleParse.parseFailed)
      (some " mykey ") (some "default")).upstreamKey = some (jsTrim " mykey ") ∧
    (onRequestPost (fun _ => UpstreamResp.ok "body") (fun _ => GoogleParse.parseFailed)
      (some "   ") (some "default")).upstreamKey = some "default" ∧
    (onRequestPost (fun _ => UpstreamResp.ok "body") (fun _ => GoogleParse.parseFailed)
      none (some "default")).upstreamKey = some "default" :=
  ⟨(credential_precedence (fun _ => UpstreamResp.ok "body") (fun _ => GoogleParse.parseFailed)
      " mykey " (some "default") "default").1 (by decide),
   (credential_precedence (fun _ => UpstreamResp.ok "body") (fun _ => GoogleParse.parseFailed)
      "   " (some "default") "default").2.1 (by decide) rfl (by decide),
   (credential_precedence (fun _ => UpstreamResp.ok "body") (fun _ => GoogleParse.parseFailed)
      "unused" (some "default") "default").2.2 rfl (by decide)⟩

/-- Claim C8 (confirmed): with no user credential and no configured default,
the proxy answers 400 with the `NO_API_KEY` error without calling upstream,
and the client surfaces that failure classified as the missing-credential
kind. -/
theorem no_credential_short_circuit : ∀ (upstream : String → UpstreamResp)
    (gparse : String → GoogleParse) (u e : Option String),
    (∀ k, u = some k → jsTrim k = "") →
    (∀ k, e = some k → k = "") →
    (onRequestPost upstream gparse u e).upstreamKey = none ∧
    (onRequestPost upstream gparse u e).status = 400 ∧
    callGeminiApi (Except.ok (onRequestPost upstream gparse u e)) =
      Except.error (RawError.err "NO_API_KEY: API Key không được cấu hình trên máy chủ.") ∧
    classifyKind (RawError.err "NO_API_KEY: API Key không được cấu hình trên máy chủ.") =
      ErrorKind.noCredential := by
  intro upstream gparse u e hu he
  have h := resolveApiKey_eq_none u e hu he
  refine ⟨?_, ?_, ?_, by decide⟩
  · simp [onRequestPost, h]
  · simp [onRequestPost, h]
  · simp only [onRequestPost, h]
    decide

/-- Witness for C8: neither credential present. -/
theorem no_credential_short_circuit_witness :
    (onRequestPost (fun _ => UpstreamResp.ok "body") (fun _ => GoogleParse.parseFailed)
      none none).upstreamKey = none ∧
    (onRequestPost (fun _ => UpstreamResp.ok "body") (fun _ => GoogleParse.parseFailed)
      none none).status = 400 ∧
    callGeminiApi (Except.ok (onRequestPost (fun _ => UpstreamResp.ok "body")
      (fun _ => GoogleParse.parseFailed) none none)) =
      Except.error (RawError.err "NO_API_KEY: API Key không được cấu hình trên máy chủ.") ∧
    classifyKind (RawError.err "NO_API_KEY: API Key không được cấu hình trên máy chủ.") =
      ErrorKind.noCredential :=
  no_credential_short_circuit (fun _ => UpstreamResp.ok "body")
    (fun _ => GoogleParse.parseFailed) none none
    (fun k hk => Option.noConfusion hk) (fun k hk => Option.noConfusion hk)

/-- Claim C3, counterexample: on a 4K enhancement the source issues the first
underlying call immediately — only the second call is preceded by the
1.1-second delay — so "each of the two calls is preceded by the standard
inter-call delay" fails on the very first call. -/
theorem enhance_4k_pacing_counterexample :
    (handleEnhance (fun _ s => Except.ok (s ++ "+")) (fun _ => none) none "img"
      Quality.fourK).trace =
      [EnhEv.call Quality.fourK "img", EnhEv.delay, EnhEv.call Quality.fourK "img+"] ∧
    enhPacedFrom false
      (handleEnhance (fun _ s => Except.ok (s ++ "+")) (fun _ => none) none "img"
        Quality.fourK).trace = false := by
  refine ⟨?_, ?_⟩ <;> decide

/-- Claim C3 (amended): a 4K enhancement issues exactly two underlying calls,
both at the 4K tier, the second taking the first call's output as input and
one 1.1-second delay between them (the first call has no preceding delay);
the operation returns the output of the second call.  HD and 2K issue
exactly one call with no delay. -/
theorem enhance_call_structure : ∀ (enh : Nat → String → Except RawError String)
    (tryParse : String → Option String) (userApiKey : Option String)
    (img r1 r2 r : String),
    (enh 0 img = Except.ok r1 → enh 1 r1 = Except.ok r2 →
      handleEnhance enh tryParse userApiKey img Quality.fourK =
        ⟨some r2, none,
         [EnhEv.call Quality.fourK img, EnhEv.delay, EnhEv.call Quality.fourK r1]⟩) ∧
    (enh 0 img = Except.ok r →
      handleEnhance enh tryParse userApiKey img Quality.HD =
        ⟨some r, none, [EnhEv.call Quality.HD img]⟩) ∧
    (enh 0 img = Except.ok r →
      handleEnhance enh tryParse userApiKey img Quality.twoK =
        ⟨some r, none, [EnhEv.call Quality.twoK img]⟩) := by
  intro enh tryParse userApiKey img r1 r2 r
  refine ⟨?_, ?_, ?_⟩
  · intro h1 h2
    simp [handleEnhance, h1, h2]
  · intro h1
    simp [handleEnhance, h1]
  · intro h1
    simp [handleEnhance, h1]

/-- Witness for C3 (amended) with a concrete enhancement oracle. -/
theorem enhance_call_structure_witness :
    handleEnhance (fun _ s => Except.ok (s ++ "!")) (fun _ => none) none "a" Quality.fourK =
      ⟨some "a!!", none,
       [EnhEv.call Quality.fourK "a", EnhEv.delay, EnhEv.call Quality.fourK "a!"]⟩ ∧
    handleEnhance (fun _ s => Except.ok (s ++ "!")) (fun _ => none) none "a" Quality.HD =
      ⟨some "a!", none, [EnhEv.call Quality.HD "a"]⟩ :=
  ⟨(enhance_call_structure (fun _ s => Except.ok (s ++ "!")) (fun _ => none) none
      "a" "a!" "a!!" "a!").1 (by decide) (by decide),
   (enhance_call_structure (fun _ s => Except.ok (s ++ "!")) (fun _ => none) none
      "a" "a!" "a!!" "a!").2.1 (by decide)⟩

/-- Claim C1, counterexample: the batch runner's abort test matches the raw
message against the quota patterns, not the classified kind.  The message
"PERMISSION_DENIED 429" is classified `InvalidCredential` — an error kind
for which the claim promises per-task isolation — yet with no user
credential the run is aborted: all results are cleared, one run-level error
is set, and tasks 1 and 2 of three are never dispatched. -/
theorem batch_quota_abort_counterexample :
    classifyKind (RawError.err "PERMISSION_DENIED 429") = ErrorKind.invalidCredential ∧
    classifyKind (RawError.err "PERMISSION_DENIED 429") ≠ ErrorKind.quotaExhausted ∧
    (handleBatchGenerate (fun _ => Except.error (RawError.err "PERMISSION_DENIED 429"))
      (fun _ => none) none [0, 1, 2]).results = [] ∧
    (handleBatchGenerate (fun _ => Except.error (RawError.err "PERMISSION_DENIED 429"))
      (fun _ => none) none [0, 1, 2]).runError.isSome = true ∧
    dispatches (handleBatchGenerate (fun _ => Except.error (RawError.err "PERMISSION_DENIED 429"))
      (fun _ => none) none [0, 1, 2]).trace = [0] := by
  refine ⟨?_, ?_, ?_, ?_, ?_⟩ <;> decide

/-- Claim C1 (amended): the batch runner's global abort is keyed on the raw
error message matching the quota patterns ("RESOURCE_EXHAUSTED" or "429")
with no truthy user credential — not on the classified kind.  The first such
failure clears every per-task result, sets one run-level error, and
dispatches no task past the failing position; when no outcome is such a
raw-pattern quota failure under the shared credential (any failure whose
message matches neither pattern, or any failure under a user credential),
every task is dispatched and each task ends in the terminal state matching
its own outcome, with no run-level error. -/
theorem batch_quota_abort_policy : ∀ (outcomes : Nat → Except RawError String)
    (tryParse : String → Option String) (userApiKey : Option String)
    (l : List Nat) (i : Nat),
    (i < l.length → (∀ j, j < i → abortsRun userApiKey (outcomes j) = false) →
      abortsRun userApiKey (outcomes i) = true →
      (handleBatchGenerate outcomes tryParse userApiKey l).results = [] ∧
      (handleBatchGenerate outcomes tryParse userApiKey l).runError.isSome = true ∧
      dispatches (handleBatchGenerate outcomes tryParse userApiKey l).trace =
        List.range (i + 1)) ∧
    (l.Nodup → (∀ j, j < l.length → abortsRun userApiKey (outcomes j) = false) →
      (handleBatchGenerate outcomes tryParse userApiKey l).runError = none ∧
      dispatches (handleBatchGenerate outcomes tryParse userApiKey l).trace =
        List.range l.length ∧
      (handleBatchGenerate outcomes tryParse userApiKey l).results =
        batchExpected outcomes tryParse userApiKey 0 l) := by
  intro outcomes tryParse userApiKey l i
  constructor
  · intro hi hpre habort
    have h := batchLoop_abort outcomes tryParse userApiKey l.length l i 0
      (l.map mkLoading) hi (fun j hj => by simpa using hpre j hj) (by simpa using habort)
    refine ⟨h.1, h.2.1, ?_⟩
    rw [show (handleBatchGenerate outcomes tryParse userApiKey l) =
      batchLoop outcomes tryParse userApiKey l.length 0 l (l.map mkLoading) from rfl,
      h.2.2, List.range_eq_range']
  · intro hnodup hok
    have h := batchLoop_complete outcomes tryParse userApiKey l.length l 0 []
      (fun j hj => by simpa using hok j hj) hnodup (by simp)
    rw [List.nil_append] at h
    rw [show (handleBatchGenerate outcomes tryParse userApiKey l) =
      batchLoop outcomes tryParse userApiKey l.length 0 l (l.map mkLoading) from rfl, h]
    refine ⟨rfl, ?_, by simp⟩
    rw [show (BatchOutcome.mk (List.nil ++ batchExpected outcomes tryParse userApiKey 0 l)
      none (expectedBatchTrace 0 l) (expectedBatchProgress l.length 0 l)).trace =
      expectedBatchTrace 0 l from rfl,
      dispatches_expectedBatchTrace l 0, List.range_eq_range']

/-- Witness for C1: an abort on a first-task quota failure with the shared
credential, and a completed run where the middle task fails for another
reason. -/
theorem batch_quota_abort_policy_witness :
    ((handleBatchGenerate (fun _ => Except.error (RawError.err "429")) (fun _ => none)
        none [10, 11, 12]).results = [] ∧
      (handleBatchGenerate (fun _ => Except.error (RawError.err "429")) (fun _ => none)
        none [10, 11, 12]).runError.isSome = true ∧
      dispatches (handleBatchGenerate (fun _ => Except.error (RawError.err "429"))
        (fun _ => none) none [10, 11, 12]).trace = List.range 1) ∧
    ((handleBatchGenerate (fun j => if j = 1 then Except.error (RawError.err "SAFETY")
        else Except.ok "img") (fun _ => none) none [10, 11, 12]).runError = none ∧
      dispatches (handleBatchGenerate (fun j => if j = 1 then Except.error (RawError.err "SAFETY")
        else Except.ok "img") (fun _ => none) none [10, 11, 12]).trace = List.range 3 ∧
      (handleBatchGenerate (fun j => if j = 1 then Except.error (RawError.err "SAFETY")
        else Except.ok "img") (fun _ => none) none [10, 11, 12]).results =
        batchExpected (fun j => if j = 1 then Except.error (RawError.err "SAFETY")
          else Except.ok "img") (fun _ => none) none 0 [10, 11, 12]) :=
  ⟨(batch_quota_abort_policy (fun _ => Except.error (RawError.err "429")) (fun _ => none)
      none [10, 11, 12] 0).1 (by decide) (fun j hj => absurd hj (Nat.not_lt_zero j))
      (by decide),
   (batch_quota_abort_policy (fun j => if j = 1 then Except.error (RawError.err "SAFETY")
      else Except.ok "img") (fun _ => none) none [10, 11, 12] 0).2 (by decide)
      (fun j hj => by
        have h3 : j < 3 := by simpa using hj
        interval_cases j <;> decide)⟩

/-- Claim C6 (confirmed): in the batch runner every dispatch except the very
first is immediately preceded by the 1.1-second delay and the first is
issued undelayed, while the variation runner delays before every dispatch
including its first. -/
theorem pacing_discipline : ∀ (outcomes outcomes2 : Nat → Except RawError String)
    (tryParse tryParse2 : String → Option String) (userApiKey userApiKey2 : Option String)
    (l : List Nat) (qty : Option Int) (prompt : String) (c0 : Int) (o : StressOutcome),
    pacedFrom true (handleBatchGenerate outcomes tryParse userApiKey l).trace = true ∧
    (l ≠ [] → (handleBatchGenerate outcomes tryParse userApiKey l).trace.head? =
      some (Ev.dispatch 0)) ∧
    (handleStressTestGenerate outcomes2 tryParse2 userApiKey2 qty prompt c0 = some o →
      pacedFrom false o.trace = true) := by
  intro outcomes outcomes2 tryParse tryParse2 userApiKey userApiKey2 l qty prompt c0 o
  refine ⟨(batchLoop_paced_zero outcomes tryParse userApiKey l.length l (l.map mkLoading)).1,
    (batchLoop_paced_zero outcomes tryParse userApiKey l.length l (l.map mkLoading)).2, ?_⟩
  intro h
  unfold handleStressTestGenerate at h
  cases hcond : (jsTrim prompt == "") with
  | true =>
    rw [hcond] at h
    simp at h
  | false =>
    rw [hcond] at h
    simp only [Bool.false_eq_true, if_false, Option.some.injEq] at h
    rw [← h]
    exact stressLoop_paced outcomes2 tryParse2 userApiKey2 _ _ _ c0

/-- Witness for C6 at a two-task batch and a one-item variation run. -/
theorem pacing_discipline_witness :
    pacedFrom true (handleBatchGenerate (fun _ => Except.ok "x") (fun _ => none)
      none [0, 1]).trace = true ∧
    (handleBatchGenerate (fun _ => Except.ok "x") (fun _ => none) none [0, 1]).trace.head? =
      some (Ev.dispatch 0) ∧
    pacedFrom false (stressRun (fun _ => Except.ok "x") (fun _ => none) none ["p"] 0).trace =
      true :=
  ⟨(pacing_discipline (fun _ => Except.ok "x") (fun _ => Except.ok "x") (fun _ => none)
      (fun _ => none) none none [0, 1] (some 1) "p" 0
      (stressRun (fun _ => Except.ok "x") (fun _ => none) none ["p"] 0)).1,
   (pacing_discipline (fun _ => Except.ok "x") (fun _ => Except.ok "x") (fun _ => none)
      (fun _ => none) none none [0, 1] (some 1) "p" 0
      (stressRun (fun _ => Except.ok "x") (fun _ => none) none ["p"] 0)).2.1 (by simp),
   (pacing_discipline (fun _ => Except.ok "x") (fun _ => Except.ok "x") (fun _ => none)
      (fun _ => none) none none [0, 1] (some 1) "p" 0
      (stressRun (fun _ => Except.ok "x") (fun _ => none) none ["p"] 0)).2.2 (by decide)⟩

/-- Claim C4, counterexample: a quota-classified failure in the variation
runner with no user credential does not set the cooldown — the translated
shared-credential quota message matches neither cooldown trigger pattern —
so "the cooldown is set to 60 regardless of whether a user credential is
present" fails. -/
theorem stress_cooldown_counterexample :
    (handleStressTestGenerate
        (fun j => if j = 0 then Except.error (RawError.err "429") else Except.ok "img")
        (fun _ => none) none (some 2) "p" 0).map StressOutcome.cooldown = some 0 ∧
    classifyKind (RawError.err "429") = ErrorKind.quotaExhausted ∧
    (0 : Int) ≠ 60 := by
  refine ⟨?_, ?_, ?_⟩ <;> decide

/-- Claim C4 (amended): a quota-classified item failure never aborts the
variation run — every item is dispatched and each of the other items ends
`success` on its own outcome while the failing item alone ends `error` — and
the shared cooldown is set to 60 exactly when a (truthy) user credential is
present; under the shared default credential the cooldown is left unchanged. -/
theorem stress_quota_isolation : ∀ (outcomes : Nat → Except RawError String)
    (tryParse : String → Option String) (userApiKey : Option String)
    (prompts : List String) (c0 : Int) (k : Nat) (e : RawError),
    (∀ p ∈ prompts, p ≠ "") →
    k < prompts.length →
    outcomes k = Except.error e →
    classifyKind e = ErrorKind.quotaExhausted →
    (∀ j, j < prompts.length → j ≠ k → ∃ u, outcomes j = Except.ok u) →
    dispatches (stressRun outcomes tryParse userApiKey prompts c0).trace =
      List.range prompts.length ∧
    (∀ j, j < prompts.length → j ≠ k →
      ((stressRun outcomes tryParse userApiKey prompts c0).results.get? j).map
        StressResult.status = some RunStatus.success) ∧
    ((stressRun outcomes tryParse userApiKey prompts c0).results.get? k).map
      StressResult.status = some RunStatus.error ∧
    (stressRun outcomes tryParse userApiKey prompts c0).cooldown =
      (if jsTruthy userApiKey then 60 else c0) := by
  intro outcomes tryParse userApiKey prompts c0 k e hne hk hek hquota hok
  have hmain := stressLoop_complete outcomes tryParse userApiKey prompts.length prompts
    [] c0 hne (Nat.le_refl _) (by simp)
  rw [Nat.sub_self, List.nil_append] at hmain
  have hrun : stressRun outcomes tryParse userApiKey prompts c0 =
      ⟨stressExpected outcomes tryParse userApiKey 0 prompts,
       cooldownFold outcomes tryParse userApiKey c0 0 prompts.length,
       prompts.length, expectedStressTrace 0 prompts.length⟩ := by
    rw [show stressRun outcomes tryParse userApiKey prompts c0 =
      stressLoop outcomes tryParse userApiKey prompts.length prompts
        (stressPending 0 prompts) c0 from rfl, hmain]
    simp
  refine ⟨?_, ?_, ?_, ?_⟩
  · rw [hrun]
    rw [show (StressOutcome.mk (stressExpected outcomes tryParse userApiKey 0 prompts)
      (cooldownFold outcomes tryParse userApiKey c0 0 prompts.length) prompts.length
      (expectedStressTrace 0 prompts.length)).trace =
      expectedStressTrace 0 prompts.length from rfl,
      dispatches_expectedStressTrace, List.range_eq_range']
  · intro j hj hjk
    rw [hrun]
    have := stressExpected_status_get outcomes tryParse userApiKey prompts 0 j hj
    rcases hok j hj hjk with ⟨u, hu⟩
    simp only [Nat.zero_add] at this
    rw [show (StressOutcome.mk (stressExpected outcomes tryParse userApiKey 0 prompts)
      (cooldownFold outcomes tryParse userApiKey c0 0 prompts.length) prompts.length
      (expectedStressTrace 0 prompts.length)).results =
      stressExpected outcomes tryParse userApiKey 0 prompts from rfl, this, hu]
  · rw [hrun]
    have := stressExpected_status_get outcomes tryParse userApiKey prompts 0 k hk
    simp only [Nat.zero_add] at this
    rw [show (StressOutcome.mk (stressExpected outcomes tryParse userApiKey 0 prompts)
      (cooldownFold outcomes tryParse userApiKey c0 0 prompts.length) prompts.length
      (expectedStressTrace 0 prompts.length)).results =
      stressExpected outcomes tryParse userApiKey 0 prompts from rfl, this, hek]
  · rw [hrun]
    rw [show (StressOutcome.mk (stressExpected outcomes tryParse userApiKey 0 prompts)
      (cooldownFold outcomes tryParse userApiKey c0 0 prompts.length) prompts.length
      (expectedStressTrace 0 prompts.length)).cooldown =
      cooldownFold outcomes tryParse userApiKey c0 0 prompts.length from rfl,
      cooldownFold_one_error outcomes tryParse userApiKey k prompts.length 0 c0
        (fun j h1 h2 h3 => hok j (by omega) h3) (Nat.zero_le k) (by omega)]
    rw [hek]
    have hmsgT : translateApiError tryParse e true = msgQuotaUserKey := by
      simpa using translate_of_quota tryParse e true hquota
    have hmsgF : translateApiError tryParse e false = msgQuotaDefault := by
      simpa using translate_of_quota tryParse e false hquota
    cases htr : jsTruthy userApiKey with
    | true =>
      simp only [stressCooldownUpd, htr, hmsgT]
      rw [show (jsIncludes (jsToLowerCase msgQuotaUserKey) "hết hạn ngạch" ||
          jsIncludes msgQuotaUserKey "429") = true from by decide]
      simp
    | false =>
      simp only [stressCooldownUpd, htr, hmsgF]
      rw [show (jsIncludes (jsToLowerCase msgQuotaDefault) "hết hạn ngạch" ||
          jsIncludes msgQuotaDefault "429") = false from by decide]

/-- Witness for C4 (amended): item 1 of three fails on quota under a user
credential; items 0 and 2 succeed and the cooldown becomes 60. -/
theorem stress_quota_isolation_witness :
    dispatches (stressRun
      (fun j => if j = 1 then Except.error (RawError.err "429") else Except.ok "img")
      (fun _ => none) (some "K") ["p", "p", "p"] 0).trace = List.range 3 ∧
    ((stressRun (fun j => if j = 1 then Except.error (RawError.err "429") else Except.ok "img")
      (fun _ => none) (some "K") ["p", "p", "p"] 0).results.get? 1).map
      StressResult.status = some RunStatus.error ∧
    (stressRun (fun j => if j = 1 then Except.error (RawError.err "429") else Except.ok "img")
      (fun _ => none) (some "K") ["p", "p", "p"] 0).cooldown =
      (if jsTruthy (some "K") then 60 else 0) :=
  ⟨(stress_quota_isolation
      (fun j => if j = 1 then Except.error (RawError.err "429") else Except.ok "img")
      (fun _ => none) (some "K") ["p", "p", "p"] 0 1 (RawError.err "429")
      (fun p hp => by simp at hp; rw [hp]; decide) (by decide) (by decide) (by decide)
      (fun j hj hne => ⟨"img", by simp [hne]⟩)).1,
   (stress_quota_isolation
      (fun j => if j = 1 then Except.error (RawError.err "429") else Except.ok "img")
      (fun _ => none) (some "K") ["p", "p", "p"] 0 1 (RawError.err "429")
      (fun p hp => by simp at hp; rw [hp]; decide) (by decide) (by decide) (by decide)
      (fun j hj hne => ⟨"img", by simp [hne]⟩)).2.2.1,
   (stress_quota_isolation
      (fun j => if j = 1 then Except.error (RawError.err "429") else Except.ok "img")
      (fun _ => none) (some "K") ["p", "p", "p"] 0 1 (RawError.err "429")
      (fun p hp => by simp at hp; rw [hp]; decide) (by decide) (by decide) (by decide)
      (fun j hj hne => ⟨"img", by simp [hne]⟩)).2.2.2⟩

/-- Claim C10 (confirmed): the number of variation items seeded equals the
requested quantity clamped to [1, 60] — above 60 exactly 60 run, empty or
below 1 exactly 1 runs — and every seeded item receives exactly one terminal
result (the final results carry ids 0..n-1 once each, all `success` or
`error`). -/
theorem variation_quantity_clamp : ∀ (outcomes : Nat → Except RawError String)
    (tryParse : String → Option String) (userApiKey : Option String)
    (qty : Option Int) (prompt : String) (c0 : Int),
    jsTrim prompt ≠ "" →
    handleStressTestGenerate outcomes tryParse userApiKey qty prompt c0 =
      some (stressRun outcomes tryParse userApiKey
        (List.replicate (stressQuantity qty) prompt) c0) ∧
    (stressRun outcomes tryParse userApiKey
      (List.replicate (stressQuantity qty) prompt) c0).results.length =
      stressQuantity qty ∧
    stressQuantity qty = (clamp (jsNumberOr1 qty) 1 60).toNat ∧
    (∀ n : Int, qty = some n → 60 < n → stressQuantity qty = 60) ∧
    (qty = none → stressQuantity qty = 1) ∧
    (∀ n : Int, qty = some n → n < 1 → stressQuantity qty = 1) ∧
    (stressRun outcomes tryParse userApiKey
      (List.replicate (stressQuantity qty) prompt) c0).results.map StressResult.id =
      List.range (stressQuantity qty) ∧
    (∀ r ∈ (stressRun outcomes tryParse userApiKey
        (List.replicate (stressQuantity qty) prompt) c0).results,
      r.status = RunStatus.success ∨ r.status = RunStatus.error) := by
  intro outcomes tryParse userApiKey qty prompt c0 htrim
  have hp : prompt ≠ "" := by
    intro hh
    exact htrim (by rw [hh]; rfl)
  have hne : ∀ q ∈ List.replicate (stressQuantity qty) prompt, q ≠ "" := by
    intro q hq
    rw [(List.eq_of_mem_replicate hq)]
    exact hp
  have hmain := stressLoop_complete outcomes tryParse userApiKey
    (List.replicate (stressQuantity qty) prompt).length
    (List.replicate (stressQuantity qty) prompt) [] c0 hne (Nat.le_refl _) (by simp)
  rw [Nat.sub_self, List.nil_append] at hmain
  have hrun : stressRun outcomes tryParse userApiKey
      (List.replicate (stressQuantity qty) prompt) c0 =
      ⟨stressExpected outcomes tryParse userApiKey 0
        (List.replicate (stressQuantity qty) prompt),
       cooldownFold outcomes tryParse userApiKey c0 0
        (List.replicate (stressQuantity qty) prompt).length,
       (List.replicate (stressQuantity qty) prompt).length,
       expectedStressTrace 0 (List.replicate (stressQuantity qty) prompt).length⟩ := by
    rw [show stressRun outcomes tryParse userApiKey
      (List.replicate (stressQuantity qty) prompt) c0 =
      stressLoop outcomes tryParse userApiKey
        (List.replicate (stressQuantity qty) prompt).length
        (List.replicate (stressQuantity qty) prompt)
        (stressPending 0 (List.replicate (stressQuantity qty) prompt)) c0 from rfl, hmain]
    simp
  refine ⟨?_, ?_, rfl, ?_, ?_, ?_, ?_, ?_⟩
  · simp only [handleStressTestGenerate]
    rw [show (jsTrim prompt == "") = false from by simp [htrim]]
    rfl
  · rw [hrun]
    simp [stressExpected_length]
  · intro n hn hgt
    subst hn
    simp only [stressQuantity, jsNumberOr1, clamp]
    rw [if_neg (by omega : ¬ n = 0)]
    omega
  · intro hn
    subst hn
    rfl
  · intro n hn hlt
    subst hn
    rcases eq_or_ne n 0 with rfl | hne0
    · decide
    · simp only [stressQuantity, jsNumberOr1, clamp]
      rw [if_neg hne0]
      omega
  · rw [hrun]
    simp only [stressExpected_ids, List.length_replicate, List.range_eq_range']
  · rw [hrun]
    intro r hr
    exact stressExpected_terminal outcomes tryParse userApiKey _ 0 r hr

/-- Witness for C10 at a concrete run of two items. -/
theorem variation_quantity_clamp_witness :
    handleStressTestGenerate (fun _ => Except.ok "img") (fun _ => none) none
      (some 2) "p" 0 =
      some (stressRun (fun _ => Except.ok "img") (fun _ => none) none
        (List.replicate (stressQuantity (some 2)) "p") 0) ∧
    (stressRun (fun _ => Except.ok "img") (fun _ => none) none
      (List.replicate (stressQuantity (some 2)) "p") 0).results.length =
      stressQuantity (some 2) ∧
    (stressRun (fun _ => Except.ok "img") (fun _ => none) none
      (List.replicate (stressQuantity (some 2)) "p") 0).results.map StressResult.id =
      List.range (stressQuantity (some 2)) :=
  ⟨(variation_quantity_clamp (fun _ => Except.ok "img") (fun _ => none) none
      (some 2) "p" 0 (by decide)).1,
   (variation_quantity_clamp (fun _ => Except.ok "img") (fun _ => none) none
      (some 2) "p" 0 (by decide)).2.1,
   (variation_quantity_clamp (fun _ => Except.ok "img") (fun _ => none) none
      (some 2) "p" 0 (by decide)).2.2.2.2.2.2.1⟩
